import Mathlib

/-!
# libcaf_net: middleman and QUIC transport

A shallow embedding of the parts of `libcaf_net` that the network module
(`caf::net::middleman`), the UDP backend, the QUIC transport policy
(`caf::net::quic_transport`), the endpoint manager queues, the packet writer
decorator, the ordering header and the name resolution (`caf::net::ip`) are
made of, followed by theorems about them.

Conventions of the embedding:

* pointers are natural numbers (the address), a nullable pointer is an `Option`;
* a byte is a natural number;
* a C++ function with side effects returns the list of effects it performed or
  the state it leaves behind;
* a call that may throw, or that has undefined behaviour, returns an `outcome`;
* a loop that may run forever takes a fuel argument and returns `none` when the
  fuel runs out.
-/

namespace caf

/-! ## Error values -/

/-- The members of `caf::sec` that the embedded sources mention; every other
member is `other n`. -/
inductive sec where
  | runtime_error
  | unavailable_or_would_block
  | feature_disabled
  | other (code : Nat)
  deriving DecidableEq, Repr

namespace net
namespace basp

/-- The members of `caf::net::basp::ec` that the embedded sources mention. -/
inductive ec where
  | invalid_scheme
  | other (code : Nat)
  deriving DecidableEq, Repr

end basp
end net

/-- A `caf::error`: an error code of one of the two categories in use, with the
context message given to `make_error`. -/
inductive error where
  | of_sec (code : sec) (context : String)
  | of_ec (code : net.basp.ec)
  deriving DecidableEq, Repr

/-- The function `make_error(sec, message)`. -/
def make_error (code : sec) (context : String) : error :=
  error.of_sec code context

/-- The class template `caf::expected<T>`: a value or an error. -/
inductive expected (α : Type) where
  | value (x : α)
  | failure (err : error)
  deriving DecidableEq, Repr

/-- The conversion `expected<T>::operator bool`: true when a value is held. -/
def expected.engaged {α : Type} : expected α → Bool
  | expected.value _ => true
  | expected.failure _ => false

/-- How a call ends: it returns, it throws (`CAF_RAISE_ERROR`), it has no
defined behaviour (a member call through a null pointer), or it ends the
program through `std::terminate`. -/
inductive outcome (α : Type) where
  | returned (x : α)
  | raised (what : String)
  | undefined_behavior
  | terminated
  deriving DecidableEq, Repr

/-- A `caf::uri`, of which only the scheme is inspected here. -/
structure uri where
  scheme : String
  authority : String
  path : String
  deriving DecidableEq, Repr

/-- An actor handle. -/
abbrev actor := Nat

namespace net

/-- An `endpoint_manager_ptr`, identified by the address it holds. -/
abbrev endpoint_manager_ptr := Nat

/-- The interface `middleman_backend` as far as the middleman uses it: the id
given to the base-class constructor, the result of the virtual `connect`, the
result of the virtual `port`, and the result of the virtual `init` (`none` is
the empty error). The virtual `resolve` is an effect and is recorded by the
caller. -/
structure middleman_backend where
  id : String
  connect : uri → expected endpoint_manager_ptr
  port : Nat
  init : Option error := none

/-- The type `middleman::middleman_backend_list`. -/
abbrev middleman_backend_list := List middleman_backend

/-- The effects of `middleman::resolve`. -/
inductive resolve_effect where
  /-- The call `ptr->resolve(locator, listener)` on a backend. -/
  | backend_resolve (ptr : middleman_backend) (locator : uri) (listener : actor)
  /-- The call `anon_send(listener, err)`. -/
  | anon_send (listener : actor) (err : error)

/-- The algorithm `std::find_if` followed by the test against `end()`: the first
element that satisfies the predicate, if any. -/
def find_if {α : Type} (predicate : α → Bool) : List α → Option α
  | [] => none
  | x :: rest => if predicate x then some x else find_if predicate rest

namespace middleman

/-- The function `middleman::backend(scheme)`: `nullptr` is `none`. -/
def backend (backends_ : middleman_backend_list) (scheme : String) :
    Option middleman_backend :=
  find_if (fun ptr => ptr.id == scheme) backends_

/-- The function `middleman::connect(locator)`. The result of `backend` is used
without a test, and the test that follows is on the result of the backend. -/
def connect (backends_ : middleman_backend_list) (locator : uri) :
    outcome (expected endpoint_manager_ptr) :=
  match backend backends_ locator.scheme with
  | none => outcome.undefined_behavior
  | some ptr =>
    let ret := ptr.connect locator
    if ret.engaged then outcome.returned ret
    else outcome.returned (expected.failure (error.of_ec basp.ec.invalid_scheme))

/-- The function `middleman::resolve(locator, listener)`, returning the effects
it performs. -/
def resolve (backends_ : middleman_backend_list) (locator : uri) (listener : actor) :
    outcome (List resolve_effect) :=
  match backend backends_ locator.scheme with
  | some ptr => outcome.returned [resolve_effect.backend_resolve ptr locator listener]
  | none =>
    outcome.returned
      [resolve_effect.anon_send listener (error.of_ec basp.ec.invalid_scheme)]

/-- The function `middleman::port(scheme)`. -/
def port (backends_ : middleman_backend_list) (scheme : String) : expected Nat :=
  match backend backends_ scheme with
  | some ptr => expected.value ptr.port
  | none => expected.failure (error.of_ec basp.ec.invalid_scheme)

end middleman

namespace backend
namespace udp

/-- The function `udp::connect`. -/
def connect (_locator : uri) : expected endpoint_manager_ptr :=
  expected.failure (make_error sec.runtime_error "connect called on udp backend")

/-- The UDP backend as the middleman sees it: `middleman_backend("udp")`. -/
def as_backend (listening_port_ : Nat) : middleman_backend where
  id := "udp"
  connect := connect
  port := listening_port_

end udp
end backend


/-! ## The QUIC transport policy -/

/-- A `caf::byte`. -/
abbrev byte := Nat

/-- An `ip_endpoint`. The `sockaddr_storage` that `detail::convert` fills from
it carries the same address and port, so the embedding uses the endpoint for
both. -/
structure ip_endpoint where
  address : List Nat
  port : Nat
  deriving DecidableEq, Repr

/-- A `detail::quicly_conn_ptr`, identified by the address of the connection. -/
abbrev quicly_conn_ptr := Nat

/-- The member function `std::vector<byte>::resize(n)` without a fill value: new
elements are value-initialised, that is zero. -/
def vector_resize (v : List byte) (n : Nat) : List byte :=
  v.take n ++ List.replicate (n - v.length) 0

/-- The member function `std::vector::insert(begin(), first, last)`. -/
def vector_insert_begin (v : List byte) (range : List byte) : List byte :=
  range ++ v

/-- The member function `std::vector::insert(end(), first, last)`. -/
def vector_insert_end (v : List byte) (range : List byte) : List byte :=
  v ++ range

/-- The struct `received_data`. -/
structure received_data where
  conn : quicly_conn_ptr
  received : List byte
  deriving DecidableEq, Repr

/-- The constructor `received_data::received_data(conn, data)`: the member
`received` starts empty, is resized to `data.size()`, and then `data` is
inserted at its beginning. -/
def received_data.ctor (conn : quicly_conn_ptr) (data : List byte) : received_data :=
  let received : List byte := []
  let received := vector_resize received data.length
  let received := vector_insert_begin received data
  { conn := conn, received := received }

/-- The struct `quic_transport::packet`. -/
structure packet where
  destination : quicly_conn_ptr
  bytes : List byte
  deriving DecidableEq, Repr

/-- The enum `receive_policy_flag`. -/
inductive receive_policy_flag where
  | at_least
  | at_most
  | exactly
  deriving DecidableEq, Repr

/-- The struct `endpoint_manager::message`: the original mailbox element
(opaque) and its serialized payload. -/
structure message where
  msg : Nat
  payload : List byte
  deriving DecidableEq, Repr

/-- Modelled from the spec: the class template `transport_worker_dispatcher`,
whose header is not among the sources. The spec describes it as a demultiplexer
keyed by remote endpoint identifier that holds one application instance per
peer, spawns a worker on the first data from an unknown peer, and routes later
data to it. The model keeps the ids of the workers in creation order and a
record of the calls it received. -/
structure transport_worker_dispatcher where
  workers_ : List quicly_conn_ptr
  errors_ : List sec
  data_ : List (quicly_conn_ptr × List byte)
  messages_ : List message
  deriving DecidableEq, Repr

namespace transport_worker_dispatcher

/-- Modelled from the spec: `add_new_worker(parent, node, id)` of the absent
dispatcher; one worker per id. -/
def add_new_worker (d : transport_worker_dispatcher) (id : quicly_conn_ptr) :
    transport_worker_dispatcher :=
  if id ∈ d.workers_ then d else { d with workers_ := d.workers_ ++ [id] }

/-- Modelled from the spec: `handle_data(parent, data, id)` of the absent
dispatcher; data from an unknown id spawns its worker first. -/
def handle_data (d : transport_worker_dispatcher) (data : List byte)
    (id : quicly_conn_ptr) : transport_worker_dispatcher :=
  let d := add_new_worker d id
  { d with data_ := d.data_ ++ [(id, data)] }

/-- Modelled from the spec: `handle_error(code)` of the absent dispatcher; the
code is reported to the application. -/
def handle_error (d : transport_worker_dispatcher) (code : sec) :
    transport_worker_dispatcher :=
  { d with errors_ := d.errors_ ++ [code] }

/-- Modelled from the spec: `write_message(writer, msg)` of the absent
dispatcher; the message is handed to the application. -/
def write_message (d : transport_worker_dispatcher) (msg : message) :
    transport_worker_dispatcher :=
  { d with messages_ := d.messages_ ++ [msg] }

end transport_worker_dispatcher

/-- The container `std::set<detail::quicly_conn_ptr>`, kept as the ascending
list of its keys; `set_insert` is `std::set::insert`. -/
def set_insert (x : quicly_conn_ptr) : List quicly_conn_ptr → List quicly_conn_ptr
  | [] => [x]
  | y :: rest =>
    if x < y then x :: y :: rest
    else if x = y then y :: rest
    else y :: set_insert x rest

/-- The member function `std::set::erase(key)`. -/
def set_erase (x : quicly_conn_ptr) (s : List quicly_conn_ptr) : List quicly_conn_ptr :=
  s.filter (fun y => y != x)

/-- The state of a `quic_transport` object: its data members apart from the
QUIC and TLS contexts, which belong to the QUIC library. The member
`next_cid_master_id` is `next_cid_.master_id`, a 32-bit unsigned integer. -/
structure quic_transport where
  dispatcher_ : transport_worker_dispatcher
  read_buf_ : List received_data
  packet_queue_ : List packet
  max_consecutive_reads_ : Nat
  read_threshold_ : Nat
  collected_ : Nat
  max_ : Nat
  rd_flag_ : receive_policy_flag
  next_cid_master_id : Nat
  known_conns_ : List quicly_conn_ptr
  deriving DecidableEq, Repr

/-- The fields of a `quicly_decoded_packet_t` that the transport reads:
`octets.base[0]`, `version`, `cid.src`, `cid.dest.encrypted`,
`cid.dest.plaintext.node_id` and `cid.dest.plaintext.thread_id`. -/
structure quicly_decoded_packet_t where
  first_octet : Nat
  version : Nat
  cid_src : List byte
  cid_dest_encrypted : List byte
  node_id : Nat
  thread_id : Nat
  deriving DecidableEq, Repr

/-- The macro `QUICLY_PACKET_IS_LONG_HEADER` of the QUIC library: the top bit
of the first octet is set. -/
def QUICLY_PACKET_IS_LONG_HEADER (first_byte : Nat) : Bool :=
  first_byte / 128 % 2 == 1

/-- A callback that the QUIC library makes into the transport while it
processes a packet: `on_receive` of the stream callbacks, after the library has
stored the bytes, with the content `quicly_streambuf_ingress_get` then
returns; and `closed_by_peer`. -/
inductive quicly_callback where
  | on_receive (conn : quicly_conn_ptr) (input : List byte)
  | closed_by_peer (conn : quicly_conn_ptr)
  deriving DecidableEq, Repr

/-- What `quicly_accept` leaves behind: the library state, the callbacks it
made, its return value, and the connection pointer it stored (null is `none`). -/
structure accept_result (L : Type) where
  lib : L
  callbacks : List quicly_callback
  res : Int
  conn : Option quicly_conn_ptr

/-- The QUIC library as the transport uses it, over a library state `L`: the
constant `QUICLY_PROTOCOL_VERSION` and the functions `quicly_decode_packet`
(`none` is `SIZE_MAX`, otherwise the decoded packet and the returned length),
`quicly_is_destination`, `quicly_receive` and `quicly_accept`. -/
structure quicly_library (L : Type) where
  protocol_version : Nat
  decode_packet : L → List byte → Option (quicly_decoded_packet_t × Nat)
  is_destination : L → quicly_conn_ptr → ip_endpoint → quicly_decoded_packet_t → Bool
  receive : L → quicly_conn_ptr → ip_endpoint → quicly_decoded_packet_t →
    L × List quicly_callback
  accept : L → ip_endpoint → quicly_decoded_packet_t → Nat → accept_result L

/-- A datagram built by the QUIC library and handed to `detail::send_one` on
the transport socket. -/
inductive sent_datagram where
  | version_negotiation (dest : ip_endpoint) (src_cid : List byte) (dest_cid : List byte)
  | stateless_reset (dest : ip_endpoint) (cid : List byte)
  deriving DecidableEq, Repr

/-- The result of `read(handle_, buf)` on the UDP socket: an error code, or the
received bytes (`read_res` is their number) and the sender. -/
inductive read_result where
  | err (code : sec)
  | ok (data : List byte) (ep : ip_endpoint)
  deriving DecidableEq, Repr

namespace quic_transport

/-- The function `quic_transport::on_closed_by_peer(conn)`. -/
def on_closed_by_peer (t : quic_transport) (conn : quicly_conn_ptr) : quic_transport :=
  { t with known_conns_ := set_erase conn t.known_conns_ }

/-- The stream callback `on_receive` installed by the constructor: a non-empty
ingress buffer is appended to the shared read buffer as a `received_data`. -/
def on_receive (t : quic_transport) (conn : quicly_conn_ptr) (input : List byte) :
    quic_transport :=
  if input.length ≠ 0 then
    { t with read_buf_ := t.read_buf_ ++ [received_data.ctor conn input] }
  else t

/-- Runs the callbacks the library made during one call, in order. -/
def run_callbacks (t : quic_transport) : List quicly_callback → quic_transport
  | [] => t
  | quicly_callback.on_receive conn input :: rest => run_callbacks (on_receive t conn input) rest
  | quicly_callback.closed_by_peer conn :: rest => run_callbacks (on_closed_by_peer t conn) rest

/-- The loop `for (auto& data : *read_buf_) dispatcher_.handle_data(...)`. -/
def dispatch_read_buf (d : transport_worker_dispatcher) :
    List received_data → transport_worker_dispatcher
  | [] => d
  | data :: rest => dispatch_read_buf (d.handle_data data.received data.conn) rest

/-- The function `quic_transport::write_some`: its body is `return false;`
followed by a comment. -/
def write_some (t : quic_transport) : Bool × quic_transport :=
  (false, t)

/-- The function `quic_transport::write_packet(parent, header, payload, conn)`. -/
def write_packet (t : quic_transport) (header payload : List byte)
    (conn : quicly_conn_ptr) : quic_transport :=
  let buf : List byte := []
  let buf := vector_insert_end buf header
  let buf := vector_insert_end buf payload
  { t with packet_queue_ := t.packet_queue_ ++ [{ destination := conn, bytes := buf }] }

/-- The packets the application writes through the packet-writer decorator while
the dispatcher hands it one message: each is a call
`write_packet(parent, header, payload, conn)` on the transport. -/
def write_packets (t : quic_transport) :
    List (List byte × List byte × quicly_conn_ptr) → quic_transport
  | [] => t
  | (header, payload, conn) :: rest => write_packets (write_packet t header payload conn) rest

/-- The statement `dispatcher_.write_message(decorator, std::move(msg))`: the
dispatcher receives the message, and the application (a template parameter,
here `app_write`) writes its packets through the decorator. -/
def write_message (app_write : message → List (List byte × List byte × quicly_conn_ptr))
    (t : quic_transport) (msg : message) : quic_transport :=
  let t := { t with dispatcher_ := t.dispatcher_.write_message msg }
  write_packets t (app_write msg)

/-- The loop `for (auto msg = parent.next_message(); msg != nullptr; msg =
parent.next_message())` of `handle_write_event`, over a parent of state `P`
whose `next_message` returns the message (null is `none`) and the state it
leaves the parent in. -/
def drain_messages {P : Type}
    (app_write : message → List (List byte × List byte × quicly_conn_ptr))
    (next_message : P → Option message × P) :
    Nat → quic_transport → P → Option (quic_transport × P)
  | 0, _, _ => none
  | fuel + 1, t, parent =>
    match next_message parent with
    | (none, parent) => some (t, parent)
    | (some msg, parent) =>
      drain_messages app_write next_message fuel (write_message app_write t msg) parent

/-- The function `quic_transport::handle_write_event(parent)`: the returned
boolean, the transport and the parent afterwards; `none` when the fuel does not
suffice for the message loop. -/
def handle_write_event {P : Type}
    (app_write : message → List (List byte × List byte × quicly_conn_ptr))
    (next_message : P → Option message × P) (fuel : Nat) (t : quic_transport)
    (parent : P) : Option (Bool × quic_transport × P) :=
  let t := (write_some t).2
  match drain_messages app_write next_message fuel t parent with
  | none => none
  | some (t, parent) =>
    let r := write_some t
    some (r.1, r.2, parent)

end quic_transport

/-- The variables of `handle_read_event` that its packet loop changes: the
transport, the state of the QUIC library, the datagrams handed to `send_one`,
and the local `off`. -/
structure read_state (L : Type) where
  self : quic_transport
  lib : L
  sent : List sent_datagram
  off : Nat

/-- How one pass through a loop body ends. -/
inductive loop_step (σ : Type) where
  | break_ (s : σ)
  | continue_ (s : σ)

namespace quic_transport

/-- The part of the loop body of `handle_read_event` after the version check:
the packet goes to the known connection it is destined to, or opens a new
connection, or is a short-header packet for no connection. -/
def dispatch_packet {L : Type} (q : quicly_library L) (sa : ip_endpoint)
    (packet : quicly_decoded_packet_t) (s : read_state L) : read_state L :=
  match find_if (fun conn => q.is_destination s.lib conn sa packet) s.self.known_conns_ with
  | some conn =>
    let r := q.receive s.lib conn sa packet
    let t := run_callbacks s.self r.2
    let t := { t with dispatcher_ := dispatch_read_buf t.dispatcher_ t.read_buf_ }
    let t := { t with read_buf_ := [] }
    { s with self := t, lib := r.1 }
  | none =>
    if QUICLY_PACKET_IS_LONG_HEADER packet.first_octet then
      let r := q.accept s.lib sa packet s.self.next_cid_master_id
      let t := run_callbacks s.self r.callbacks
      match r.conn with
      | some conn =>
        if r.res = 0 then
          let t := { t with known_conns_ := set_insert conn t.known_conns_ }
          let t := { t with next_cid_master_id := (t.next_cid_master_id + 1) % 2 ^ 32 }
          let t := { t with dispatcher_ := t.dispatcher_.add_new_worker conn }
          { s with self := t, lib := r.lib }
        else { s with self := t, lib := r.lib }
      | none => { s with self := t, lib := r.lib }
    else if packet.node_id == 0 && packet.thread_id == 0 then
      { s with sent := s.sent ++ [sent_datagram.stateless_reset sa packet.cid_dest_encrypted] }
    else s

/-- The body of the loop `while (off != read_res)` of `handle_read_event`, on
the received bytes `data`. The local `plen` is initialised to zero and never
assigned; the length `quicly_decode_packet` returns is only compared with
`SIZE_MAX`. -/
def packet_iteration {L : Type} (q : quicly_library L) (data : List byte)
    (sa : ip_endpoint) (s : read_state L) : loop_step (read_state L) :=
  let plen : Nat := 0
  match q.decode_packet s.lib (data.drop s.off) with
  | none => loop_step.break_ s
  | some (packet, _) =>
    if QUICLY_PACKET_IS_LONG_HEADER packet.first_octet then
      if packet.version != q.protocol_version then
        loop_step.break_
          { s with sent := s.sent ++
              [sent_datagram.version_negotiation sa packet.cid_src packet.cid_dest_encrypted] }
      else
        let s := dispatch_packet q sa packet s
        loop_step.continue_ { s with off := s.off + plen }
    else
      let s := dispatch_packet q sa packet s
      loop_step.continue_ { s with off := s.off + plen }

/-- The loop `while (off != read_res)` of `handle_read_event`; `none` when the
fuel runs out before the loop is left. -/
def read_loop {L : Type} (q : quicly_library L) (data : List byte) (sa : ip_endpoint) :
    Nat → read_state L → Option (read_state L)
  | fuel, s =>
    if s.off = data.length then some s
    else
      match fuel with
      | 0 => none
      | fuel + 1 =>
        match packet_iteration q data sa s with
        | loop_step.break_ s => some s
        | loop_step.continue_ s => read_loop q data sa fuel s

/-- The function `quic_transport::handle_read_event(parent)`, given the result
of the socket read: the returned boolean and the state afterwards; `none` when
the fuel does not suffice for the packet loop. -/
def handle_read_event {L : Type} (q : quicly_library L) (fuel : Nat) (t : quic_transport)
    (lib : L) (ret : read_result) : Option (Bool × read_state L) :=
  match ret with
  | read_result.err code =>
    some (false,
      { self := { t with dispatcher_ := t.dispatcher_.handle_error code },
        lib := lib, sent := [], off := 0 })
  | read_result.ok data ep =>
    match read_loop q data ep fuel { self := t, lib := lib, sent := [], off := 0 } with
    | none => none
    | some s => some (true, s)

end quic_transport

/-! ## The endpoint manager queues -/

namespace endpoint_manager

/-- The struct `endpoint_manager::event`: its member `value` is a variant of
`resolve_request` and `timeout`. -/
inductive event where
  | resolve_request (path : String) (listener : actor)
  | timeout (type : Nat) (id : Nat)
  deriving DecidableEq, Repr

namespace event_policy

/-- The function `endpoint_manager::event_policy::task_size`. -/
def task_size (_x : event) : Nat :=
  1

end event_policy

namespace message_policy

/-- The function `endpoint_manager::message_policy::task_size`. -/
def task_size (x : message) : Nat :=
  x.payload.length

end message_policy

end endpoint_manager

/-! ## The middleman: start and init -/

/-- A `caf::node_id`: default constructed, or made from a URI by
`make_node_id`. -/
inductive node_id where
  | invalid
  | from_uri (locator : uri)
  deriving DecidableEq, Repr

/-- The function `make_node_id(uri)`. -/
def make_node_id (from_ : uri) : node_id :=
  node_id.from_uri from_

/-- The function `get_or(config, key, fallback)`, on the result of looking the
key up: the configured value, or the fallback when there is none. -/
def get_or {α : Type} (configured : Option α) (fallback : α) : α :=
  match configured with
  | some value => value
  | none => fallback

/-- The statements of the thread that `middleman::start` spawns. -/
inductive thread_step where
  | set_logger_sys
  | set_thread_name (name : String)
  | thread_started
  | set_thread_id
  | mpx_run
  | thread_terminates
  deriving DecidableEq, Repr

/-- What `middleman::init` leaves behind: how the call ended, the node id of the
actor system, and the backends whose `init` it called, in call order. -/
structure init_result where
  result : outcome Unit
  node_ : node_id
  inits : List middleman_backend

namespace middleman

/-- The function `middleman::start()`, given the value configured under
`middleman.manual-multiplexing` (`none` when the key is absent) and the member
`mpx_thread_` (`none` when it holds no thread): the member afterwards, a thread
being given by the statements it runs. The new thread is move-assigned to the
member, and the move assignment of `std::thread` calls `std::terminate` when the
member still holds a joinable thread. -/
def start (manual_multiplexing : Option Bool) (mpx_thread_ : Option (List thread_step)) :
    outcome (Option (List thread_step)) :=
  if !get_or manual_multiplexing false then
    match mpx_thread_ with
    | some _ => outcome.terminated
    | none =>
      outcome.returned
        (some [thread_step.set_logger_sys, thread_step.set_thread_name "caf.multiplexer",
          thread_step.thread_started, thread_step.set_thread_id, thread_step.mpx_run,
          thread_step.thread_terminates])
  else outcome.returned mpx_thread_

/-- The loop `for (auto& backend : backends_)` of `middleman::init`, with the
backends already initialised in `done`. -/
def init_backends :
    List middleman_backend → List middleman_backend → outcome Unit × List middleman_backend
  | [], done => (outcome.returned (), done)
  | backend :: rest, done =>
    match backend.init with
    | some _ => (outcome.raised "failed to initialize backend", done ++ [backend])
    | none => init_backends rest (done ++ [backend])

/-- The function `middleman::init(cfg)`, given the result of `mpx_->init()`, the
result of `get_if<uri>(&cfg, "middleman.this-node")` (null is `none`), the
backends, and the node id of the system before the call. -/
def init (mpx_init : Option error) (this_node : Option uri)
    (backends_ : middleman_backend_list) (node_ : node_id) : init_result :=
  match mpx_init with
  | some _ => { result := outcome.raised "mpx->init() failed", node_ := node_, inits := [] }
  | none =>
    match this_node with
    | some node_uri =>
      let this_node := make_node_id node_uri
      let r := init_backends backends_ []
      { result := r.1, node_ := this_node, inits := r.2 }
    | none =>
      { result := outcome.raised "no valid entry for middleman.this-node found",
        node_ := node_, inits := [] }

end middleman

/-! ## The UDP backend: proxies -/

/-- Modelled from the spec: the class `actor_proxy_impl`, whose header is not
among the sources. The spec gives a proxy three attributes: the owning node
id, the remote actor id, and a reference to its endpoint manager. -/
structure actor_proxy_impl where
  id : Nat
  node : node_id
  dst : Option endpoint_manager_ptr
  deriving DecidableEq, Repr

/-- Modelled from the spec: the function template `make_actor<impl_type,
hdl_type>(aid, nid, sys, cfg, dst)`, which is not among the sources, for the
proxy implementation: the new actor has the id `aid`, the node `nid`, and its
constructor receives the endpoint manager `dst`. -/
def make_actor (aid : Nat) (nid : node_id) (dst : Option endpoint_manager_ptr) :
    actor_proxy_impl :=
  { id := aid, node := nid, dst := dst }

namespace backend
namespace udp

/-- The data members of the UDP backend that its member functions read or
write: `ep_manager_` (null is `none`), `listening_port_` and `node_ids_`. -/
structure state where
  ep_manager_ : Option endpoint_manager_ptr
  listening_port_ : Nat
  node_ids_ : List node_id
  deriving DecidableEq, Repr

/-- The function `udp::peer(id)`. -/
def peer (self : state) (_id : node_id) : Option endpoint_manager_ptr :=
  self.ep_manager_

/-- The function `udp::make_proxy(nid, aid)`. -/
def make_proxy (self : state) (nid : node_id) (aid : Nat) : actor_proxy_impl :=
  make_actor aid nid (peer self nid)

end udp
end backend

/-! ## The packet writer decorator -/

namespace packet_writer_decorator

/-- The function `packet_writer_decorator::write_impl(buffers)`, for a parent of
state `P` whose `write_packet(id, buffers)` is given, and the id of the
decorated object. -/
def write_impl {P I : Type} (write_packet : P → I → List (List byte) → P) (object_id : I)
    (parent_ : P) (buffers : List (List byte)) : P :=
  write_packet parent_ object_id buffers

end packet_writer_decorator

/-- The struct `transport_result` of the transport worker test. -/
structure transport_result where
  packet_buffer : List byte
  ep : ip_endpoint
  deriving DecidableEq, Repr

namespace dummy_transport

/-- The loop `for (auto buf : buffers) packet_buf.insert(packet_buf.end(), ...)`
of `dummy_transport::write_packet`. -/
def append_buffers (packet_buf : List byte) : List (List byte) → List byte
  | [] => packet_buf
  | buf :: rest => append_buffers (vector_insert_end packet_buf buf) rest

/-- The function `dummy_transport::write_packet(ep, buffers)` of the transport
worker test, on the result record it shares with the test. -/
def write_packet (res_ : transport_result) (ep : ip_endpoint) (buffers : List (List byte)) :
    transport_result :=
  let res_ := { res_ with ep := ep }
  let packet_buf : List byte := []
  { res_ with packet_buffer := append_buffers packet_buf buffers }

end dummy_transport

/-- A parent that records every call of its `write_packet(id, buffers)`. -/
def recording_write_packet {I : Type} (calls : List (I × List (List byte))) (id : I)
    (buffers : List (List byte)) : List (I × List (List byte)) :=
  calls ++ [(id, buffers)]

/-! ## The QUIC transport: initialisation -/

/-- The effects of `quic_transport::init` outside the QUIC and TLS contexts. -/
inductive init_effect where
  | load_certificate_chain (file : String)
  | load_private_key (file : String)
  | mask_add_read
  deriving DecidableEq, Repr

namespace quic_transport

/-- The value `path_to_certs` of `quic_transport::init`, given the result of
`getenv("QUICLY_CERTS")` (null is `none`). -/
def path_to_certs (path : Option String) : String :=
  match path with
  | some path => path
  | none => "/home/jakob/code/quicly/t/assets/"

/-- The function `quic_transport::init(parent)`, given the result of
`dispatcher_.init(parent)` and of `getenv("QUICLY_CERTS")`: the returned error
and the files it loads and the mask it sets, in order. The set-up of the TLS and
QUIC contexts and of the connection-id key is left to the library. -/
def init (dispatcher_init : Option error) (path : Option String) :
    Option error × List init_effect :=
  match dispatcher_init with
  | some err => (some err, [])
  | none =>
    let path_to_certs := path_to_certs path
    (none,
      [init_effect.load_certificate_chain (path_to_certs ++ "server.crt"),
        init_effect.load_private_key (path_to_certs ++ "server.key"),
        init_effect.mask_add_read])

end quic_transport

/-! ## The ordering header -/

namespace reliability

/-- The number of bits of `sequence_type`, which is `uint16_t`. -/
def sequence_type_bits : Nat := 16

/-- The type `sequence_type`, which is `uint16_t`: an unsigned integer of
`sequence_type_bits` bits. -/
structure sequence_type where
  value : Nat
  in_range : value < 2 ^ sequence_type_bits
  deriving DecidableEq

namespace sequence_type

/-- The conversion of an integer to `uint16_t`, as an assignment to a
`sequence_type` makes it: the integer modulo 2^16. -/
def of_int (n : Nat) : sequence_type :=
  { value := n % 2 ^ sequence_type_bits, in_range := Nat.mod_lt n (by decide) }

/-- The increment `++x` of a `sequence_type`: the sum is computed as an integer
and converted back. -/
def succ (x : sequence_type) : sequence_type :=
  of_int (x.value + 1)

end sequence_type

/-- The value `sizeof(sequence_type)`, in bytes of eight bits. -/
def sizeof_sequence_type : Nat :=
  sequence_type_bits / 8

/-- The struct `ordering_header`: its only member is `sequence`, of type
`sequence_type`. -/
structure ordering_header where
  sequence : sequence_type
  deriving DecidableEq

/-- The constant `ordering_header_size`. -/
def ordering_header_size : Nat :=
  sizeof_sequence_type

/-- The function `inspect(f, x)` for `ordering_header`: the type name and the
fields it hands to the inspector. -/
def inspect (x : ordering_header) : String × List sequence_type :=
  ("reliability::ordering_header", [x.sequence])

end reliability

/-! ## The middleman: make and stop -/

/-- A backend type of the type list given to `middleman::make`: its constructor
`T(mm)`. -/
abbrev backend_type := Unit → middleman_backend

/-- The effects of `middleman::stop`. -/
inductive stop_effect where
  | backend_stop (ptr : middleman_backend)
  | mpx_shutdown
  | thread_join
  | mpx_run

namespace middleman

/-- The function `middleman::create_backends(mm, token)`, on the member
`backends_` of `mm`. -/
def create_backends (backends_ : middleman_backend_list) :
    List backend_type → middleman_backend_list
  | [] => backends_
  | T :: Ts => create_backends (backends_ ++ [T ()]) Ts

/-- The function `middleman::make(sys, token)`: the member `backends_` of the
middleman it returns. -/
def make (token : List backend_type) : middleman_backend_list :=
  let backends_ : middleman_backend_list := []
  if token.length > 0 then create_backends backends_ token else backends_

/-- The loop `for (const auto& backend : backends_) backend->stop()` of
`middleman::stop`. -/
def stop_backends : middleman_backend_list → List stop_effect
  | [] => []
  | backend :: rest => stop_effect.backend_stop backend :: stop_backends rest

/-- The function `middleman::stop()`, given the member `mpx_thread_` (`none`
when it holds no thread, which is when it is not joinable): its effects, in
order. -/
def stop (backends_ : middleman_backend_list) (mpx_thread_ : Option (List thread_step)) :
    List stop_effect :=
  stop_backends backends_ ++ [stop_effect.mpx_shutdown] ++
    (if mpx_thread_.isSome then [stop_effect.thread_join] else [stop_effect.mpx_run])

end middleman

/-- A `caf::error` as a value that may be empty: `none` is the default
constructed error, whose conversion to `bool` is false. -/
abbrev error_value := Option error

/-- What the scoped actor of `middleman::remote_actor` receives first: a proxy
with its interfaces (a null `strong_actor_ptr` is `none`), an error, or nothing
until the timeout. -/
inductive received_message where
  | proxy (ptr : Option Nat) (interfaces : List String)
  | error_message (e : error_value)
  | timeout
  deriving DecidableEq, Repr

namespace middleman

/-- The function `middleman::remote_actor<Handle>(locator, timeout_duration)`
after its call of `resolve`: given `actor_cast<Handle>` (a null handle is
`none`) and what `self->receive` handles. -/
def remote_actor {Handle : Type} (actor_cast : Option Nat → Option Handle)
    (received : received_message) : expected Handle :=
  let handle : Option Handle := none
  let err : error_value := none
  let r : Option Handle × error_value :=
    match received with
    | received_message.proxy ptr _ => (actor_cast ptr, err)
    | received_message.error_message e => (handle, e)
    | received_message.timeout =>
      (handle, some (make_error sec.runtime_error "manager did not respond with a proxy."))
  match r.2 with
  | some err => expected.failure err
  | none =>
    match r.1 with
    | some handle => expected.value handle
    | none => expected.failure (make_error sec.runtime_error "cast to handle-type failed")

end middleman

/-! ## The UDP backend: init -/

namespace backend
namespace udp

/-- The functions `udp::init` calls outside the backend: `detail::parse` of the
local address, `make_udp_datagram_socket` (a socket and its port),
`nonblocking`, `make_endpoint_manager` (the pointer it returns for the socket),
and the `init` of that endpoint manager. -/
structure environment where
  parse : String → expected ip_endpoint
  make_udp_datagram_socket : ip_endpoint → Bool → expected (Nat × Nat)
  nonblocking : Nat → Bool → Option error
  make_endpoint_manager : Nat → endpoint_manager_ptr
  manager_init : endpoint_manager_ptr → Option error

/-- The function `udp::init()`, given the value configured under
`middleman.udp-port` (`none` when absent) and the constant
`defaults::middleman::udp_port`: the returned error and the backend
afterwards. -/
def init (env : environment) (udp_port : Nat) (configured : Option Nat) (self : state) :
    Option error × state :=
  let conf_port := get_or configured udp_port
  let local_address := "[::]:" ++ toString conf_port
  match env.parse local_address with
  | expected.failure err => (some err, self)
  | expected.value ep =>
    match env.make_udp_datagram_socket ep true with
    | expected.failure err => (some err, self)
    | expected.value sock =>
      match env.nonblocking sock.1 true with
      | some err => (some err, self)
      | none =>
        let self := { self with listening_port_ := sock.2 }
        let self := { self with ep_manager_ := some (env.make_endpoint_manager sock.1) }
        match env.manager_init (env.make_endpoint_manager sock.1) with
        | some err => (some err, self)
        | none => (none, self)

end udp
end backend

/-! ## The QUIC transport: the remaining operations -/

/-- The default constructor of `received_data`: the struct declares the
constructor `received_data(conn, data)` and no other, so it has none. -/
def received_data.default_ctor : Option received_data :=
  none

/-- The member function `std::vector<T>::resize(n)` for an element type whose
default constructor gives `filler`. -/
def vector_resize_with {α : Type} (filler : α) (v : List α) (n : Nat) : List α :=
  v.take n ++ List.replicate (n - v.length) filler

namespace quic_transport

/-- The function `quic_transport::configure_read(cfg)`. -/
def configure_read (t : quic_transport) (cfg : receive_policy_flag × Nat) : quic_transport :=
  let t := { t with rd_flag_ := cfg.1 }
  { t with max_ := cfg.2 }

/-- The body of `quic_transport::prepare_next_read()`, for an element type of the
read buffer whose default constructor gives `filler`; sizes are 64-bit unsigned
integers. -/
def prepare_next_read_given (filler : received_data) (t : quic_transport) : quic_transport :=
  let t := { t with read_buf_ := [] }
  let t := { t with collected_ := 0 }
  match t.rd_flag_ with
  | receive_policy_flag.exactly =>
    let t :=
      if t.read_buf_.length ≠ t.max_ then
        { t with read_buf_ := vector_resize_with filler t.read_buf_ t.max_ }
      else t
    { t with read_threshold_ := t.max_ }
  | receive_policy_flag.at_most =>
    let t :=
      if t.read_buf_.length ≠ t.max_ then
        { t with read_buf_ := vector_resize_with filler t.read_buf_ t.max_ }
      else t
    { t with read_threshold_ := 1 }
  | receive_policy_flag.at_least =>
    let max_size := (t.max_ + max 100 (t.max_ / 10)) % 2 ^ 64
    let t :=
      if t.read_buf_.length ≠ max_size then
        { t with read_buf_ := vector_resize_with filler t.read_buf_ max_size }
      else t
    { t with read_threshold_ := t.max_ }

/-- The function `quic_transport::prepare_next_read()`. Each branch of its
switch calls `read_buf_->resize(n)` on a `std::vector<received_data>`, which
needs the default constructor of `received_data` whether or not the call is
reached: without one the member function cannot be instantiated, and the
result is `none`. -/
def prepare_next_read (t : quic_transport) : Option quic_transport :=
  match received_data.default_ctor with
  | none => none
  | some filler => some (prepare_next_read_given filler t)

/-- The function `quic_transport::handle_error(code)`. -/
def handle_error (t : quic_transport) (code : sec) : quic_transport :=
  { t with dispatcher_ := t.dispatcher_.handle_error code }

/-- The function `quic_transport::resolve(parent, path, listener)`, given the
`resolve` of the dispatcher. -/
def resolve
    (dispatcher_resolve : transport_worker_dispatcher → String → actor →
      transport_worker_dispatcher)
    (t : quic_transport) (path : String) (listener : actor) : quic_transport :=
  { t with dispatcher_ := dispatcher_resolve t.dispatcher_ path listener }

/-- The function `quic_transport::set_timeout(timeout_id, ep)`, given the
`set_timeout` of the dispatcher. -/
def set_timeout
    (dispatcher_set_timeout : transport_worker_dispatcher → Nat → quicly_conn_ptr →
      transport_worker_dispatcher)
    (t : quic_transport) (timeout_id : Nat) (ep : quicly_conn_ptr) : quic_transport :=
  { t with dispatcher_ := dispatcher_set_timeout t.dispatcher_ timeout_id ep }

/-- The function `quic_transport::timeout(parent, value, id)`, given the
`timeout` of the dispatcher and the packets the application (here
`app_timeout`) writes through the decorator while it handles the timeout. -/
def timeout
    (dispatcher_timeout : transport_worker_dispatcher → Nat → Nat →
      transport_worker_dispatcher)
    (app_timeout : Nat → Nat → List (List byte × List byte × quicly_conn_ptr))
    (t : quic_transport) (value : Nat) (id : Nat) : quic_transport :=
  let t := { t with dispatcher_ := dispatcher_timeout t.dispatcher_ value id }
  write_packets t (app_timeout value id)

end quic_transport

/-- One operation of the QUIC transport that ran to its end: the transport
before and after. The library, the application and the functions of the
dispatcher that are not modelled are parameters; `prepare_next_read` is taken
with its body for a read buffer whose elements are default constructed as
`filler`, which covers every element type it could be instantiated for. -/
inductive transport_step {L : Type} (q : quicly_library L)
    (app_write : message → List (List byte × List byte × quicly_conn_ptr))
    (app_timeout : Nat → Nat → List (List byte × List byte × quicly_conn_ptr))
    (dispatcher_resolve : transport_worker_dispatcher → String → actor →
      transport_worker_dispatcher)
    (dispatcher_set_timeout : transport_worker_dispatcher → Nat → quicly_conn_ptr →
      transport_worker_dispatcher)
    (dispatcher_timeout : transport_worker_dispatcher → Nat → Nat →
      transport_worker_dispatcher)
    (filler : received_data) : quic_transport → quic_transport → Prop where
  | handle_read_event (fuel : Nat) (t : quic_transport) (lib : L) (ret : read_result)
      (r : Bool × read_state L)
      (h : quic_transport.handle_read_event q fuel t lib ret = some r) :
      transport_step q app_write app_timeout dispatcher_resolve dispatcher_set_timeout
        dispatcher_timeout filler t r.2.self
  | handle_write_event (P : Type) (next_message : P → Option message × P) (fuel : Nat)
      (t : quic_transport) (parent : P) (r : Bool × quic_transport × P)
      (h : quic_transport.handle_write_event app_write next_message fuel t parent = some r) :
      transport_step q app_write app_timeout dispatcher_resolve dispatcher_set_timeout
        dispatcher_timeout filler t r.2.1
  | resolve (t : quic_transport) (path : String) (listener : actor) :
      transport_step q app_write app_timeout dispatcher_resolve dispatcher_set_timeout
        dispatcher_timeout filler t (quic_transport.resolve dispatcher_resolve t path listener)
  | timeout (t : quic_transport) (value id : Nat) :
      transport_step q app_write app_timeout dispatcher_resolve dispatcher_set_timeout
        dispatcher_timeout filler t
        (quic_transport.timeout dispatcher_timeout app_timeout t value id)
  | set_timeout (t : quic_transport) (timeout_id : Nat) (ep : quicly_conn_ptr) :
      transport_step q app_write app_timeout dispatcher_resolve dispatcher_set_timeout
        dispatcher_timeout filler t
        (quic_transport.set_timeout dispatcher_set_timeout t timeout_id ep)
  | handle_error (t : quic_transport) (code : sec) :
      transport_step q app_write app_timeout dispatcher_resolve dispatcher_set_timeout
        dispatcher_timeout filler t (quic_transport.handle_error t code)
  | prepare_next_read (t : quic_transport) :
      transport_step q app_write app_timeout dispatcher_resolve dispatcher_set_timeout
        dispatcher_timeout filler t (quic_transport.prepare_next_read_given filler t)
  | configure_read (t : quic_transport) (cfg : receive_policy_flag × Nat) :
      transport_step q app_write app_timeout dispatcher_resolve dispatcher_set_timeout
        dispatcher_timeout filler t (quic_transport.configure_read t cfg)
  | write_packet (t : quic_transport) (header payload : List byte) (conn : quicly_conn_ptr) :
      transport_step q app_write app_timeout dispatcher_resolve dispatcher_set_timeout
        dispatcher_timeout filler t (quic_transport.write_packet t header payload conn)
  | write_some (t : quic_transport) :
      transport_step q app_write app_timeout dispatcher_resolve dispatcher_set_timeout
        dispatcher_timeout filler t (quic_transport.write_some t).2
  | on_closed_by_peer (t : quic_transport) (conn : quicly_conn_ptr) :
      transport_step q app_write app_timeout dispatcher_resolve dispatcher_set_timeout
        dispatcher_timeout filler t (quic_transport.on_closed_by_peer t conn)

/-! ## Name resolution -/

namespace ip

/-- The address families `AF_UNSPEC`, `AF_INET` and `AF_INET6`; any other
family is `other`. -/
inductive address_family where
  | AF_UNSPEC
  | AF_INET
  | AF_INET6
  | other (value : Nat)
  deriving DecidableEq, Repr

/-- A `sockaddr`: its family and the bytes of its address. -/
structure sockaddr where
  sa_family : address_family
  addr : List byte
  deriving DecidableEq, Repr

/-- An entry of the list `getaddrinfo` returns: its member `ai_addr` (null is
`none`). -/
structure addrinfo where
  ai_addr : Option sockaddr
  deriving DecidableEq, Repr

/-- The hints `resolve` passes to `getaddrinfo`. -/
structure hints where
  ai_socktype_stream : Bool
  ai_family : address_family
  ai_passive : Bool
  deriving DecidableEq, Repr

/-- An `ip_address`, as the sixteen bytes it stores. -/
abbrev ip_address := List byte

/-- The functions `resolve` calls outside this file: `getaddrinfo` (`none` when
it returns non-zero, otherwise the entries in list order), `inet_ntop` (`none`
when it does not return the buffer, otherwise the text it wrote), and `parse`
for `ip_address` (`none` when it returns an error). -/
structure environment where
  getaddrinfo : String → hints → Option (List addrinfo)
  inet_ntop : address_family → List byte → Option String
  parse : String → Option ip_address

/-- The function `fetch_addr_str(get_ipv4, get_ipv6, buf, addr)`: the family it
returns and, when that is not `AF_UNSPEC`, the text in the buffer. -/
def fetch_addr_str (env : environment) (get_ipv4 get_ipv6 : Bool) (addr : Option sockaddr) :
    address_family × Option String :=
  match addr with
  | none => (address_family.AF_UNSPEC, none)
  | some addr =>
    let family := addr.sa_family
    if (family == address_family.AF_INET && get_ipv4) ||
        (family == address_family.AF_INET6 && get_ipv6) then
      match env.inet_ntop family addr.addr with
      | some text => (family, some text)
      | none => (address_family.AF_UNSPEC, none)
    else (address_family.AF_UNSPEC, none)

/-- The loop `for (auto i = addrs.get(); i != nullptr; i = i->ai_next)` of
`resolve`, with the results so far. -/
def resolve_loop (env : environment) (results : List ip_address) :
    List addrinfo → List ip_address
  | [] => results
  | i :: rest =>
    let r := fetch_addr_str env true true i.ai_addr
    if r.1 ≠ address_family.AF_UNSPEC then
      match r.2 with
      | some buffer =>
        match env.parse buffer with
        | none => resolve_loop env results rest
        | some ip => resolve_loop env (results ++ [ip]) rest
      | none => resolve_loop env results rest
    else resolve_loop env results rest

/-- The hints of `resolve(host)`. -/
def resolve_hints (host : String) : hints :=
  { ai_socktype_stream := true, ai_family := address_family.AF_UNSPEC,
    ai_passive := host.isEmpty }

/-- The function `ip::resolve(host)`. -/
def resolve (env : environment) (host : String) : List ip_address :=
  match env.getaddrinfo host (resolve_hints host) with
  | none => []
  | some addrs => resolve_loop env [] addrs

end ip

namespace ip

/-- The address that the description of `resolve` gives a lookup entry: an entry
with a non-null IPv4 or IPv6 socket address whose text form converts and parses
has the parsed address, any other entry has none. -/
def entry_address (env : environment) (i : addrinfo) : Option ip_address :=
  match i.ai_addr with
  | none => none
  | some addr =>
    if addr.sa_family = address_family.AF_INET ∨ addr.sa_family = address_family.AF_INET6 then
      match env.inet_ntop addr.sa_family addr.addr with
      | some text => env.parse text
      | none => none
    else none

end ip

/-! ## Concrete inputs

The inputs at which the theorems below are evaluated. -/

namespace sample

/-- A locator with a scheme no backend below answers to. -/
def tcp_locator : uri :=
  { scheme := "tcp", authority := "example.org:4242", path := "/name/worker" }

/-- A locator for the UDP backend. -/
def udp_locator : uri :=
  { scheme := "udp", authority := "example.org:4242", path := "/name/worker" }

/-- A backend whose `connect` succeeds with endpoint manager 77. -/
def test_backend : middleman_backend where
  id := "test"
  connect := fun _ => expected.value 77
  port := 0

/-- A locator for `test_backend`. -/
def test_locator : uri :=
  { scheme := "test", authority := "peer", path := "/name/worker" }

/-- A middleman with the UDP backend and the test backend. -/
def backends : middleman_backend_list :=
  [backend.udp.as_backend 4242, test_backend]

/-- A parent whose outbound queue is a list: `next_message` takes the head and
returns null on the empty queue. -/
def fifo_next_message : List message → Option message × List message
  | [] => (none, [])
  | msg :: rest => (some msg, rest)

/-- The sender of the sample datagrams. -/
def sender : ip_endpoint :=
  { address := [127, 0, 0, 1], port := 5000 }

/-- A freshly constructed transport, as the constructor leaves it, with the
connection 7 already accepted. -/
def transport : quic_transport where
  dispatcher_ := { workers_ := [7], errors_ := [], data_ := [], messages_ := [] }
  read_buf_ := []
  packet_queue_ := []
  max_consecutive_reads_ := 0
  read_threshold_ := 1024
  collected_ := 0
  max_ := 1024
  rd_flag_ := receive_policy_flag.exactly
  next_cid_master_id := 1
  known_conns_ := [7]

/-- A QUIC library without state of its own: every non-empty input decodes to
one packet that spans it, whose first octet is the first byte and whose
connection id names no node; connection 7 is the destination of every packet
and delivers the two stream bytes 72, 105 on each; a new connection is
accepted as connection 9. -/
def library : quicly_library Unit where
  protocol_version := 4278190107
  decode_packet := fun _ bytes =>
    match bytes with
    | [] => none
    | first :: _ =>
      some ({ first_octet := first, version := 4278190107, cid_src := [],
              cid_dest_encrypted := [1, 2, 3, 4], node_id := 0, thread_id := 0 },
            bytes.length)
  is_destination := fun _ conn _ _ => conn == 7
  receive := fun _ conn _ _ => ((), [quicly_callback.on_receive conn [72, 105]])
  accept := fun _ _ _ _ => { lib := (), callbacks := [], res := 0, conn := some 9 }

/-- A datagram that holds one short-header packet of four bytes. -/
def datagram : List byte := [64, 1, 2, 3]

/-- An application that writes every message as one packet to connection 7: an
empty header followed by the payload. -/
def app_write (msg : message) : List (List byte × List byte × quicly_conn_ptr) :=
  [([], msg.payload, 7)]

/-- The variables of the packet loop when `handle_read_event` enters it on the
sample transport. -/
def start : read_state Unit :=
  { self := transport, lib := (), sent := [], off := 0 }

/-- The variables of the packet loop after its first pass on the sample
datagram. -/
def after_one_packet : read_state Unit :=
  { self :=
      { transport with
        dispatcher_ :=
          { workers_ := [7], errors_ := [], data_ := [(7, [72, 105, 0, 0])], messages_ := [] } },
    lib := (), sent := [], off := 0 }

/-- Two outbound messages. -/
def outbound : List message :=
  [{ msg := 1, payload := [10, 11] }, { msg := 2, payload := [12] }]

end sample

/-- The parent hands out exactly the messages `msgs`, in this order, and then
null, which leaves it in the state `parent'`. -/
def yields {P : Type} (next_message : P → Option message × P) :
    P → List message → P → Prop
  | parent, [], parent' =>
    (next_message parent).1 = none ∧ (next_message parent).2 = parent'
  | parent, msg :: rest, parent' =>
    (next_message parent).1 = some msg ∧ yields next_message (next_message parent).2 rest parent'

namespace sample

/-- A QUIC library that knows no connection and accepts none: four bytes or
more decode to one packet whose first octet, version, node id and thread id are
the first four bytes. -/
def stray_library : quicly_library Unit where
  protocol_version := 4278190107
  decode_packet := fun _ bytes =>
    match bytes with
    | first :: version :: node :: thread :: _ =>
      some ({ first_octet := first, version := version, cid_src := [5, 6],
              cid_dest_encrypted := [1, 2, 3, 4], node_id := node, thread_id := thread },
            bytes.length)
    | _ => none
  is_destination := fun _ _ _ _ => false
  receive := fun _ _ _ _ => ((), [])
  accept := fun _ _ _ _ => { lib := (), callbacks := [], res := 1, conn := none }

/-- A transport that has accepted no connection yet. -/
def fresh_transport : quic_transport :=
  { transport with
    dispatcher_ := { workers_ := [], errors_ := [], data_ := [], messages_ := [] },
    known_conns_ := [] }

/-- The variables of the packet loop when `handle_read_event` enters it on the
fresh transport. -/
def fresh_start : read_state Unit :=
  { self := fresh_transport, lib := (), sent := [], off := 0 }

/-- A short-header packet whose connection id names node 1. -/
def stray_short : List byte := [64, 0, 1, 0]

/-- A short-header packet whose connection id names node 0 and thread 0. -/
def reset_short : List byte := [64, 0, 0, 0]

/-- A long-header packet of version 1. -/
def foreign_long : List byte := [192, 1, 0, 0]

/-- A long-header packet, which `library` decodes with the configured
version. -/
def initial_long : List byte := [192, 5, 6, 7]

/-- A QUIC library that accepts a new connection as connection 9, which from
then on is the destination of every packet; it delivers no stream bytes and
every non-empty input decodes to one packet of the configured version that
spans it. -/
def accepting_library : quicly_library Unit where
  protocol_version := 4278190107
  decode_packet := fun _ bytes =>
    match bytes with
    | [] => none
    | first :: _ =>
      some ({ first_octet := first, version := 4278190107, cid_src := [],
              cid_dest_encrypted := [1, 2, 3, 4], node_id := 0, thread_id := 0 },
            bytes.length)
  is_destination := fun _ conn _ _ => conn == 9
  receive := fun _ _ _ _ => ((), [])
  accept := fun _ _ _ _ => { lib := (), callbacks := [], res := 0, conn := some 9 }

/-- The variables of the packet loop after the first pass on `initial_long`
with `accepting_library`, from `fresh_start`. -/
def after_accept : read_state Unit :=
  { self :=
      { fresh_transport with
        dispatcher_ := { workers_ := [9], errors_ := [], data_ := [], messages_ := [] },
        known_conns_ := [9],
        next_cid_master_id := 2 },
    lib := (), sent := [], off := 0 }

/-- A backend whose `init` fails. -/
def broken_backend : middleman_backend where
  id := "broken"
  connect := fun _ => expected.failure (error.of_sec sec.runtime_error "unreachable")
  port := 0
  init := some (error.of_sec sec.runtime_error "bind failed")

/-- The node URI of the sample configuration. -/
def this_node : uri :=
  { scheme := "udp", authority := "localhost:4242", path := "" }

end sample

namespace sample

/-- The type list of a middleman with the UDP and the test backend. -/
def backend_types : List backend_type :=
  [fun _ => backend.udp.as_backend 4242, fun _ => test_backend]

/-- The element a resized read buffer is filled with. -/
def filler : received_data :=
  { conn := 0, received := [] }

/-- A UDP backend before `init`. -/
def udp_state : backend.udp.state :=
  { ep_manager_ := none, listening_port_ := 0, node_ids_ := [] }

/-- An environment in which every step of `udp::init` succeeds: the socket 3 is
bound to port 50123 and its endpoint manager is 88. -/
def udp_environment : backend.udp.environment where
  parse := fun _ => expected.value { address := [0, 0, 0, 0], port := 0 }
  make_udp_datagram_socket := fun _ _ => expected.value (3, 50123)
  nonblocking := fun _ _ => none
  make_endpoint_manager := fun _ => 88
  manager_init := fun _ => none

/-- The environment `udp_environment`, except that the `init` of the endpoint
manager fails. -/
def udp_environment_failing_manager : backend.udp.environment :=
  { udp_environment with
    manager_init := fun _ => some (error.of_sec sec.runtime_error "init failed") }

/-- A lookup that knows `localhost` only: an IPv4 entry, an entry without
address, and an IPv6 entry whose text does not parse. -/
def ip_environment : ip.environment where
  getaddrinfo := fun host _ =>
    if host = "localhost" then
      some [{ ai_addr := some { sa_family := ip.address_family.AF_INET, addr := [127, 0, 0, 1] } },
        { ai_addr := none },
        { ai_addr := some { sa_family := ip.address_family.AF_INET6, addr := [1] } }]
    else none
  inet_ntop := fun family _ =>
    if family = ip.address_family.AF_INET then some "127.0.0.1" else some "::1%lo"
  parse := fun text => if text = "127.0.0.1" then some [127, 0, 0, 1] else none

end sample

/-! ## Lemmas -/

theorem find_if_eq_none {α : Type} (predicate : α → Bool) (l : List α)
    (h : ∀ x ∈ l, predicate x = false) : find_if predicate l = none := by
  induction l with
  | nil => rfl
  | cons x rest ih =>
    have hx : predicate x = false := h x (List.mem_cons_self x rest)
    have hrest : ∀ y ∈ rest, predicate y = false :=
      fun y hy => h y (List.mem_cons_of_mem x hy)
    simp [find_if, hx, ih hrest]

theorem find_if_first {α : Type} (predicate : α → Bool) (pre post : List α) (x : α)
    (hpre : ∀ y ∈ pre, predicate y = false) (hx : predicate x = true) :
    find_if predicate (pre ++ x :: post) = some x := by
  induction pre with
  | nil => simp [find_if, hx]
  | cons y rest ih =>
    have hy : predicate y = false := hpre y (List.mem_cons_self y rest)
    have hrest : ∀ z ∈ rest, predicate z = false :=
      fun z hz => hpre z (List.mem_cons_of_mem y hz)
    simp [find_if, hy, ih hrest]

theorem find_if_cases {α : Type} (predicate : α → Bool) (l : List α) :
    (∃ pre x post, l = pre ++ x :: post ∧ (∀ y ∈ pre, predicate y = false) ∧
        predicate x = true) ∨
      (∀ y ∈ l, predicate y = false) := by
  induction l with
  | nil => right; intro y hy; cases hy
  | cons a rest ih =>
    by_cases ha : predicate a = true
    · left
      exact ⟨[], a, rest, rfl, fun y hy => (List.not_mem_nil y hy).elim, ha⟩
    · have ha' : predicate a = false := by simpa using ha
      rcases ih with ⟨pre, x, post, hl, hpre, hx⟩ | hnone
      · left
        refine ⟨a :: pre, x, post, by simp [hl], ?_, hx⟩
        intro y hy
        rcases List.mem_cons.mp hy with rfl | hy
        · exact ha'
        · exact hpre y hy
      · right
        intro y hy
        rcases List.mem_cons.mp hy with rfl | hy
        · exact ha'
        · exact hnone y hy

theorem id_beq_false (b : middleman_backend) (scheme : String) (h : b.id ≠ scheme) :
    (b.id == scheme) = false := by
  simpa using h

/-! ## The middleman -/

/-- C1: `middleman::resolve` always returns; when some backend has the scheme of
the locator as id, its only effect is one call of `resolve(locator, listener)`
on the first such backend; when no backend has, its only effect is one
`invalid_scheme` error sent to the listener; and one of the two cases holds. -/
theorem middleman_resolve_routes (backends_ : middleman_backend_list) (locator : uri)
    (listener : actor) :
    (∀ pre ptr post, backends_ = pre ++ ptr :: post →
        (∀ b ∈ pre, b.id ≠ locator.scheme) → ptr.id = locator.scheme →
        middleman.resolve backends_ locator listener =
          outcome.returned [resolve_effect.backend_resolve ptr locator listener]) ∧
    ((∀ b ∈ backends_, b.id ≠ locator.scheme) →
        middleman.resolve backends_ locator listener =
          outcome.returned
            [resolve_effect.anon_send listener (error.of_ec basp.ec.invalid_scheme)]) ∧
    ((∃ pre ptr post, backends_ = pre ++ ptr :: post ∧
        (∀ b ∈ pre, b.id ≠ locator.scheme) ∧ ptr.id = locator.scheme) ∨
      (∀ b ∈ backends_, b.id ≠ locator.scheme)) ∧
    (∃ effects, middleman.resolve backends_ locator listener = outcome.returned effects) := by
  refine ⟨?_, ?_, ?_, ?_⟩
  · intro pre ptr post hl hpre hptr
    have hfind : middleman.backend backends_ locator.scheme = some ptr := by
      rw [hl]
      exact find_if_first _ pre post ptr
        (fun b hb => id_beq_false b _ (hpre b hb)) (by simp [hptr])
    simp [middleman.resolve, hfind]
  · intro hnone
    have hfind : middleman.backend backends_ locator.scheme = none :=
      find_if_eq_none _ backends_ (fun b hb => id_beq_false b _ (hnone b hb))
    simp [middleman.resolve, hfind]
  · rcases find_if_cases (fun ptr : middleman_backend => ptr.id == locator.scheme)
        backends_ with ⟨pre, x, post, hl, hpre, hx⟩ | hnone
    · left
      refine ⟨pre, x, post, hl, ?_, by simpa using hx⟩
      intro b hb
      simpa using hpre b hb
    · right
      intro b hb
      simpa using hnone b hb
  · unfold middleman.resolve
    cases middleman.backend backends_ locator.scheme with
    | none => exact ⟨_, rfl⟩
    | some ptr => exact ⟨_, rfl⟩

/-- Witness for C1: with the UDP and the test backend registered, a `test`
locator is forwarded to the test backend, and a `tcp` locator yields one
`invalid_scheme` error for the listener. -/
theorem middleman_resolve_routes_witness :
    middleman.resolve sample.backends sample.test_locator 5 =
        outcome.returned
          [resolve_effect.backend_resolve sample.test_backend sample.test_locator 5] ∧
      middleman.resolve sample.backends sample.tcp_locator 5 =
        outcome.returned
          [resolve_effect.anon_send 5 (error.of_ec basp.ec.invalid_scheme)] :=
  ⟨(middleman_resolve_routes sample.backends sample.test_locator 5).1
      [backend.udp.as_backend 4242] sample.test_backend [] rfl
      (by
        intro b hb
        rw [List.mem_singleton] at hb
        subst hb
        decide)
      rfl,
    (middleman_resolve_routes sample.backends sample.tcp_locator 5).2.1
      (by
        intro b hb
        simp only [sample.backends, List.mem_cons, List.mem_singleton, List.mem_nil_iff,
          or_false] at hb
        rcases hb with rfl | rfl <;> decide)⟩

/-- C2: when no registered backend has the scheme of the locator as id,
`middleman::connect` calls `connect` through the null pointer that the lookup
returned: the call has no defined behaviour and returns no error. -/
theorem middleman_connect_missing_backend (backends_ : middleman_backend_list)
    (locator : uri) (h : ∀ b ∈ backends_, b.id ≠ locator.scheme) :
    middleman.backend backends_ locator.scheme = none ∧
      middleman.connect backends_ locator = outcome.undefined_behavior := by
  have hfind : middleman.backend backends_ locator.scheme = none :=
    find_if_eq_none _ backends_ (fun b hb => id_beq_false b _ (h b hb))
  exact ⟨hfind, by simp [middleman.connect, hfind]⟩

/-- Witness for C2: a `tcp` locator on a middleman with the UDP and the test
backend. -/
theorem middleman_connect_missing_backend_witness :
    middleman.backend sample.backends sample.tcp_locator.scheme = none ∧
      middleman.connect sample.backends sample.tcp_locator = outcome.undefined_behavior :=
  middleman_connect_missing_backend sample.backends sample.tcp_locator
    (by
      intro b hb
      simp only [sample.backends, List.mem_cons, List.mem_singleton, List.mem_nil_iff,
        or_false] at hb
      rcases hb with rfl | rfl <;> decide)

/-- C3: on a middleman whose only backend is the UDP backend, `connect` with a
`udp` locator returns `invalid_scheme`, although the backend is registered and
its own `connect` returned a runtime error; a backend result that holds a value
is returned as it is. -/
theorem middleman_connect_replaces_backend_error (listening_port_ : Nat) :
    middleman.backend [backend.udp.as_backend listening_port_] sample.udp_locator.scheme =
        some (backend.udp.as_backend listening_port_) ∧
      backend.udp.connect sample.udp_locator =
        expected.failure (error.of_sec sec.runtime_error "connect called on udp backend") ∧
      middleman.connect [backend.udp.as_backend listening_port_] sample.udp_locator =
        outcome.returned (expected.failure (error.of_ec basp.ec.invalid_scheme)) ∧
      middleman.connect sample.backends sample.test_locator =
        outcome.returned (expected.value 77) := by
  refine ⟨rfl, rfl, rfl, rfl⟩

/-! ## The QUIC transport: reading -/

theorem received_data_ctor_received (conn : quicly_conn_ptr) (d : List byte) :
    (received_data.ctor conn d).received = d ++ List.replicate d.length 0 := by
  simp [received_data.ctor, vector_resize, vector_insert_begin]

/-- C4: the `received_data` record built from the bytes `d` holds `d` followed by
as many zero bytes, twice the length of `d`; so the chunk 72, 105 that the
library emits reaches the application as 72, 105, 0, 0. -/
theorem received_data_ctor_pads (conn : quicly_conn_ptr) (d : List byte) :
    (received_data.ctor conn d).received = d ++ List.replicate d.length 0 ∧
      (received_data.ctor conn d).received.length = 2 * d.length ∧
      (received_data.ctor 7 [72, 105]).received = [72, 105, 0, 0] ∧
      quic_transport.packet_iteration sample.library sample.datagram sample.sender
          sample.start = loop_step.continue_ sample.after_one_packet ∧
      sample.after_one_packet.self.dispatcher_.data_ = [(7, [72, 105, 0, 0])] := by
  refine ⟨received_data_ctor_received conn d, ?_, rfl, rfl, rfl⟩
  rw [received_data_ctor_received]
  simp
  omega

/-- C5: when the socket read yields `unavailable_or_would_block`,
`handle_read_event` reports that code to the application through the
dispatcher and returns false. -/
theorem handle_read_event_would_block {L : Type} (q : quicly_library L) (fuel : Nat)
    (t : quic_transport) (lib : L) :
    ∃ s, quic_transport.handle_read_event q fuel t lib
          (read_result.err sec.unavailable_or_would_block) = some (false, s) ∧
      s.self.dispatcher_.errors_ =
        t.dispatcher_.errors_ ++ [sec.unavailable_or_would_block] :=
  ⟨_, rfl, rfl⟩

theorem sample_iteration (s : read_state Unit) (hoff : s.off = 0)
    (hconns : s.self.known_conns_ = [7]) :
    ∃ s', quic_transport.packet_iteration sample.library sample.datagram sample.sender s =
          loop_step.continue_ s' ∧ s'.off = 0 ∧ s'.self.known_conns_ = [7] := by
  simp [quic_transport.packet_iteration, quic_transport.dispatch_packet, sample.library,
    sample.datagram, hoff, hconns, find_if, QUICLY_PACKET_IS_LONG_HEADER,
    quic_transport.run_callbacks, quic_transport.on_receive]

theorem sample_read_loop (fuel : Nat) :
    ∀ s : read_state Unit, s.off = 0 → s.self.known_conns_ = [7] →
      quic_transport.read_loop sample.library sample.datagram sample.sender fuel s = none := by
  induction fuel with
  | zero =>
    intro s hoff _
    simp [quic_transport.read_loop, hoff, sample.datagram]
  | succ n ih =>
    intro s hoff hconns
    obtain ⟨s', hstep, hoff', hconns'⟩ := sample_iteration s hoff hconns
    have hne : ¬ s.off = sample.datagram.length := by
      rw [hoff]; decide
    rw [quic_transport.read_loop]
    simp only [hne, if_false, hstep]
    exact ih s' hoff' hconns'

/-- C6: for every error code `c` of the socket read, `handle_read_event` reports
`c` once through the dispatcher and returns false; but after a successful read
of a datagram that holds one packet for the known connection 7 it does not
return, whatever fuel its packet loop is given. -/
theorem handle_read_event_spins :
    (∀ (c : sec) (fuel : Nat) (t : quic_transport),
      ∃ s, quic_transport.handle_read_event sample.library fuel t () (read_result.err c) =
            some (false, s) ∧
        s.self.dispatcher_.errors_ = t.dispatcher_.errors_ ++ [c]) ∧
    (∀ fuel : Nat,
      quic_transport.handle_read_event sample.library fuel sample.transport ()
        (read_result.ok sample.datagram sample.sender) = none) := by
  constructor
  · intro c fuel t
    exact ⟨_, rfl, rfl⟩
  · intro fuel
    have h := sample_read_loop fuel
      { self := sample.transport, lib := (), sent := [], off := 0 } rfl rfl
    simp [quic_transport.handle_read_event, h]

theorem dispatch_packet_off {L : Type} (q : quicly_library L) (sa : ip_endpoint)
    (packet : quicly_decoded_packet_t) (s : read_state L) :
    (quic_transport.dispatch_packet q sa packet s).off = s.off := by
  unfold quic_transport.dispatch_packet
  split
  · rfl
  · split
    · dsimp only
      split
      · split <;> rfl
      · rfl
    · split <;> rfl

/-- C7: a pass through the packet loop of `handle_read_event` that does not
leave the loop leaves the offset as it was, whatever length the decoded packet
has. -/
theorem packet_iteration_keeps_offset {L : Type} (q : quicly_library L)
    (data : List byte) (sa : ip_endpoint) (s s' : read_state L)
    (h : quic_transport.packet_iteration q data sa s = loop_step.continue_ s') :
    s'.off = s.off := by
  unfold quic_transport.packet_iteration at h
  split at h
  · cases h
  · split at h
    · split at h
      · cases h
      · cases h
        simp [dispatch_packet_off]
    · cases h
      simp [dispatch_packet_off]

/-- Witness for C7: the first pass on the sample datagram decodes a packet of
four bytes and continues at offset zero. -/
theorem packet_iteration_keeps_offset_witness :
    (sample.library.decode_packet () sample.datagram).map Prod.snd = some 4 ∧
      quic_transport.packet_iteration sample.library sample.datagram sample.sender
          sample.start = loop_step.continue_ sample.after_one_packet ∧
      sample.after_one_packet.off = sample.start.off :=
  ⟨rfl, rfl,
    packet_iteration_keeps_offset sample.library sample.datagram sample.sender
      sample.start sample.after_one_packet rfl⟩

/-! ## The QUIC transport: writing -/

theorem write_packets_dispatcher (t : quic_transport)
    (l : List (List byte × List byte × quicly_conn_ptr)) :
    (quic_transport.write_packets t l).dispatcher_ = t.dispatcher_ := by
  induction l generalizing t with
  | nil => rfl
  | cons x rest ih =>
    obtain ⟨header, payload, conn⟩ := x
    rw [quic_transport.write_packets, ih]
    rfl

theorem write_message_messages
    (app_write : message → List (List byte × List byte × quicly_conn_ptr))
    (t : quic_transport) (msg : message) :
    (quic_transport.write_message app_write t msg).dispatcher_.messages_ =
      t.dispatcher_.messages_ ++ [msg] := by
  simp [quic_transport.write_message, write_packets_dispatcher,
    transport_worker_dispatcher.write_message]

theorem foldl_write_message_messages
    (app_write : message → List (List byte × List byte × quicly_conn_ptr))
    (msgs : List message) (t : quic_transport) :
    (msgs.foldl (quic_transport.write_message app_write) t).dispatcher_.messages_ =
      t.dispatcher_.messages_ ++ msgs := by
  induction msgs generalizing t with
  | nil => simp
  | cons msg rest ih =>
    rw [List.foldl_cons, ih, write_message_messages]
    simp

theorem drain_messages_yields {P : Type}
    (app_write : message → List (List byte × List byte × quicly_conn_ptr))
    (next_message : P → Option message × P) (msgs : List message) :
    ∀ (fuel : Nat) (t : quic_transport) (parent parent' : P),
      yields next_message parent msgs parent' → msgs.length < fuel →
      quic_transport.drain_messages app_write next_message fuel t parent =
        some (msgs.foldl (quic_transport.write_message app_write) t, parent') := by
  induction msgs with
  | nil =>
    intro fuel t parent parent' hy hfuel
    obtain ⟨hnone, hparent⟩ := hy
    cases fuel with
    | zero => simp at hfuel
    | succ n =>
      rw [quic_transport.drain_messages]
      rcases hnm : next_message parent with ⟨m, p1⟩
      rw [hnm] at hnone hparent
      simp only at hnone hparent
      subst hnone
      subst hparent
      rfl
  | cons msg rest ih =>
    intro fuel t parent parent' hy hfuel
    obtain ⟨hsome, hrest⟩ := hy
    cases fuel with
    | zero => simp at hfuel
    | succ n =>
      rw [quic_transport.drain_messages]
      rcases hnm : next_message parent with ⟨m, p1⟩
      rw [hnm] at hsome hrest
      simp only at hsome hrest
      subst hsome
      simp only [List.foldl_cons]
      exact ih n _ p1 parent' hrest (by simpa using hfuel)

/-- C8: `handle_write_event` on a transport that has just queued a packet, with
a parent that has no message, returns false while the packet is still queued. -/
theorem handle_write_event_false_with_queued_packet (t : quic_transport)
    (header payload : List byte) (conn : quicly_conn_ptr) (fuel : Nat) :
    quic_transport.handle_write_event sample.app_write sample.fifo_next_message (fuel + 1)
        (quic_transport.write_packet t header payload conn) [] =
      some (false, quic_transport.write_packet t header payload conn, []) ∧
    (quic_transport.write_packet t header payload conn).packet_queue_ ≠ [] := by
  constructor
  · rfl
  · simp [quic_transport.write_packet]

/-- C9: when the parent hands out the messages `msgs` and then null,
`handle_write_event` with enough fuel returns, leaves the parent where the null
left it, and has passed exactly `msgs`, in the order taken, to the dispatcher's
`write_message`. -/
theorem handle_write_event_drains {P : Type}
    (app_write : message → List (List byte × List byte × quicly_conn_ptr))
    (next_message : P → Option message × P) (fuel : Nat) (t : quic_transport)
    (parent parent' : P) (msgs : List message)
    (hyields : yields next_message parent msgs parent') (hfuel : msgs.length < fuel) :
    ∃ r t', quic_transport.handle_write_event app_write next_message fuel t parent =
          some (r, t', parent') ∧
      t' = msgs.foldl (quic_transport.write_message app_write) t ∧
      t'.dispatcher_.messages_ = t.dispatcher_.messages_ ++ msgs := by
  refine ⟨false, msgs.foldl (quic_transport.write_message app_write) t, ?_, rfl,
    foldl_write_message_messages app_write msgs t⟩
  have h := drain_messages_yields app_write next_message msgs fuel t parent parent'
    hyields hfuel
  simp [quic_transport.handle_write_event, quic_transport.write_some, h]

/-- Witness for C9: a parent that queues the two sample messages. -/
theorem handle_write_event_drains_witness :
    yields sample.fifo_next_message sample.outbound sample.outbound [] ∧
      sample.outbound.length < 3 ∧
      ∃ r t', quic_transport.handle_write_event sample.app_write sample.fifo_next_message 3
            sample.transport sample.outbound = some (r, t', []) ∧
        t' = sample.outbound.foldl (quic_transport.write_message sample.app_write)
          sample.transport ∧
        t'.dispatcher_.messages_ = sample.transport.dispatcher_.messages_ ++ sample.outbound :=
  ⟨⟨rfl, rfl, rfl, rfl⟩, by decide,
    handle_write_event_drains sample.app_write sample.fifo_next_message 3 sample.transport
      sample.outbound [] sample.outbound ⟨rfl, rfl, rfl, rfl⟩ (by decide)⟩

/-- C10: `write_packet(parent, h, p, c)` leaves the packet queue as it was with
one packet appended at the back, whose bytes are `h` followed by `p`, of length
`|h| + |p|`, and whose destination is `c`. -/
theorem write_packet_appends (t : quic_transport) (h p : List byte) (c : quicly_conn_ptr) :
    ∃ pkt : packet,
      (quic_transport.write_packet t h p c).packet_queue_ = t.packet_queue_ ++ [pkt] ∧
      pkt.bytes = h ++ p ∧ pkt.bytes.length = h.length + p.length ∧ pkt.destination = c ∧
      (quic_transport.write_packet t h p c).packet_queue_.length =
        t.packet_queue_.length + 1 ∧
      (quic_transport.write_packet t h p c).packet_queue_.take t.packet_queue_.length =
        t.packet_queue_ := by
  refine ⟨{ destination := c, bytes := h ++ p }, ?_, rfl, ?_, rfl, ?_, ?_⟩
  · simp [quic_transport.write_packet, vector_insert_end]
  · simp
  · simp [quic_transport.write_packet]
  · simp [quic_transport.write_packet]

/-! ## The endpoint manager queues -/

/-- C11: the task size of every control event, resolve request or timeout, is 1,
and the task size of every outbound message is the number of bytes of its
serialized payload. -/
theorem task_size_of_events_and_messages :
    (∀ x : endpoint_manager.event, endpoint_manager.event_policy.task_size x = 1) ∧
      (∀ (path : String) (listener : actor),
        endpoint_manager.event_policy.task_size
          (endpoint_manager.event.resolve_request path listener) = 1) ∧
      (∀ type id : Nat,
        endpoint_manager.event_policy.task_size (endpoint_manager.event.timeout type id) = 1) ∧
      (∀ x : message, endpoint_manager.message_policy.task_size x = x.payload.length) :=
  ⟨fun _ => rfl, fun _ _ => rfl, fun _ _ => rfl, fun _ => rfl⟩

/-! ## The QUIC transport: the branches of the packet loop -/

theorem run_callbacks_dispatcher (cbs : List quicly_callback) :
    ∀ t : quic_transport, (quic_transport.run_callbacks t cbs).dispatcher_ = t.dispatcher_ := by
  induction cbs with
  | nil => intro t; rfl
  | cons cb rest ih =>
    intro t
    cases cb with
    | on_receive conn input =>
      rw [quic_transport.run_callbacks, ih]
      unfold quic_transport.on_receive
      split <;> rfl
    | closed_by_peer conn =>
      rw [quic_transport.run_callbacks, ih]
      rfl

theorem run_callbacks_master_id (cbs : List quicly_callback) :
    ∀ t : quic_transport,
      (quic_transport.run_callbacks t cbs).next_cid_master_id = t.next_cid_master_id := by
  induction cbs with
  | nil => intro t; rfl
  | cons cb rest ih =>
    intro t
    cases cb with
    | on_receive conn input =>
      rw [quic_transport.run_callbacks, ih]
      unfold quic_transport.on_receive
      split <;> rfl
    | closed_by_peer conn =>
      rw [quic_transport.run_callbacks, ih]
      rfl

theorem run_callbacks_known_conns (cbs : List quicly_callback)
    (h : ∀ c, quicly_callback.closed_by_peer c ∉ cbs) :
    ∀ t : quic_transport,
      (quic_transport.run_callbacks t cbs).known_conns_ = t.known_conns_ := by
  induction cbs with
  | nil => intro t; rfl
  | cons cb rest ih =>
    intro t
    have hrest : ∀ c, quicly_callback.closed_by_peer c ∉ rest :=
      fun c hc => h c (List.mem_cons_of_mem cb hc)
    cases cb with
    | on_receive conn input =>
      rw [quic_transport.run_callbacks, ih hrest]
      unfold quic_transport.on_receive
      split <;> rfl
    | closed_by_peer conn =>
      exact absurd (List.mem_cons_self _ rest) (h conn)

theorem mem_set_insert (x c : quicly_conn_ptr) (l : List quicly_conn_ptr) :
    c ∈ set_insert x l ↔ c = x ∨ c ∈ l := by
  induction l with
  | nil => simp [set_insert]
  | cons y rest ih =>
    unfold set_insert
    split
    · simp
    · split
      · rename_i hxy
        subst hxy
        simp
      · simp only [List.mem_cons, ih]
        tauto

theorem find_if_unknown {L : Type} (q : quicly_library L) (sa : ip_endpoint)
    (packet : quicly_decoded_packet_t) (s : read_state L)
    (h : ∀ conn ∈ s.self.known_conns_, q.is_destination s.lib conn sa packet = false) :
    find_if (fun conn => q.is_destination s.lib conn sa packet) s.self.known_conns_ = none :=
  find_if_eq_none _ _ h

/-- C12, as the code has it: the pass of the packet loop over a short-header
packet that is destined to no known connection hands one stateless reset for
the sender to `send_one` when the connection id of the packet names node 0 and
thread 0, and sends nothing otherwise; the transport is left as it was. -/
theorem short_header_reset_guarded {L : Type} (q : quicly_library L) (data : List byte)
    (sa : ip_endpoint) (s : read_state L) (packet : quicly_decoded_packet_t) (n : Nat)
    (hdecode : q.decode_packet s.lib (data.drop s.off) = some (packet, n))
    (hshort : QUICLY_PACKET_IS_LONG_HEADER packet.first_octet = false)
    (hunknown : ∀ conn ∈ s.self.known_conns_,
      q.is_destination s.lib conn sa packet = false) :
    ∃ s', quic_transport.packet_iteration q data sa s = loop_step.continue_ s' ∧
      s'.self = s.self ∧
      s'.sent =
        if packet.node_id = 0 ∧ packet.thread_id = 0 then
          s.sent ++ [sent_datagram.stateless_reset sa packet.cid_dest_encrypted]
        else s.sent := by
  have hfind := find_if_unknown q sa packet s hunknown
  by_cases hcid : packet.node_id = 0 ∧ packet.thread_id = 0
  · refine ⟨{ s with sent := s.sent ++
        [sent_datagram.stateless_reset sa packet.cid_dest_encrypted], off := s.off + 0 },
      ?_, ?_, ?_⟩
    · simp only [quic_transport.packet_iteration, hdecode, hshort,
        quic_transport.dispatch_packet, hfind]
      simp only [hcid.1, hcid.2, beq_self_eq_true, Bool.and_self, if_true]
      rfl
    · rfl
    · simp [hcid]
  · refine ⟨{ s with off := s.off + 0 }, ?_, ?_, ?_⟩
    · simp only [quic_transport.packet_iteration, hdecode, hshort,
        quic_transport.dispatch_packet, hfind]
      have hcond : (packet.node_id == 0 && packet.thread_id == 0) = false := by
        rw [Bool.and_eq_false_iff]
        by_cases h0 : packet.node_id = 0
        · right
          simpa using fun h => hcid ⟨h0, h⟩
        · left
          simpa using h0
      simp only [hcond]
      rfl
    · rfl
    · simp [hcid]

/-- Witness for C12: a short-header packet with node 0 and thread 0 on a
transport without connections gets one stateless reset. -/
theorem short_header_reset_guarded_witness :
    sample.stray_library.decode_packet () (sample.reset_short.drop 0) =
        some ({ first_octet := 64, version := 0, cid_src := [5, 6],
                cid_dest_encrypted := [1, 2, 3, 4], node_id := 0, thread_id := 0 }, 4) ∧
      ∃ s', quic_transport.packet_iteration sample.stray_library sample.reset_short
            sample.sender sample.fresh_start = loop_step.continue_ s' ∧
        s'.self = sample.fresh_transport ∧
        s'.sent = [sent_datagram.stateless_reset sample.sender [1, 2, 3, 4]] :=
  ⟨rfl,
    short_header_reset_guarded sample.stray_library sample.reset_short sample.sender
      sample.fresh_start
      { first_octet := 64, version := 0, cid_src := [5, 6],
        cid_dest_encrypted := [1, 2, 3, 4], node_id := 0, thread_id := 0 } 4
      rfl rfl (fun _ h => absurd h (List.not_mem_nil _))⟩

/-- Counterexample for C12: a short-header packet whose connection id names node
1, on a transport without connections, passes through the packet loop and
nothing is sent. -/
theorem short_header_without_reset :
    sample.stray_library.decode_packet () (sample.stray_short.drop 0) =
        some ({ first_octet := 64, version := 0, cid_src := [5, 6],
                cid_dest_encrypted := [1, 2, 3, 4], node_id := 1, thread_id := 0 }, 4) ∧
      QUICLY_PACKET_IS_LONG_HEADER 64 = false ∧
      sample.fresh_start.self.known_conns_ = [] ∧
      quic_transport.packet_iteration sample.stray_library sample.stray_short sample.sender
          sample.fresh_start = loop_step.continue_ sample.fresh_start ∧
      sample.fresh_start.sent = [] :=
  ⟨rfl, rfl, rfl, rfl, rfl⟩

/-- C13: when the packet loop of `handle_read_event` decodes a long-header
packet whose version is not the configured one, it hands one version
negotiation for the sender to `send_one` and leaves the loop with the transport
and the library as they were; `handle_read_event` then returns true. -/
theorem version_mismatch_negotiates {L : Type} (q : quicly_library L) (data : List byte)
    (sa : ip_endpoint) (s : read_state L) (packet : quicly_decoded_packet_t) (n fuel : Nat)
    (hoff : s.off ≠ data.length)
    (hdecode : q.decode_packet s.lib (data.drop s.off) = some (packet, n))
    (hlong : QUICLY_PACKET_IS_LONG_HEADER packet.first_octet = true)
    (hversion : packet.version ≠ q.protocol_version) :
    quic_transport.read_loop q data sa (fuel + 1) s =
        some { s with sent := s.sent ++
          [sent_datagram.version_negotiation sa packet.cid_src packet.cid_dest_encrypted] } ∧
      (s.off = 0 → s.sent = [] →
        quic_transport.handle_read_event q (fuel + 1) s.self s.lib (read_result.ok data sa) =
          some (true,
            { self := s.self, lib := s.lib,
              sent := [sent_datagram.version_negotiation sa packet.cid_src
                packet.cid_dest_encrypted],
              off := 0 })) := by
  have hne : (packet.version != q.protocol_version) = true := by simpa using hversion
  have hloop : ∀ s0 : read_state L, s0 = s →
      quic_transport.read_loop q data sa (fuel + 1) s0 =
        some { s with sent := s.sent ++
          [sent_datagram.version_negotiation sa packet.cid_src packet.cid_dest_encrypted] } := by
    intro s0 hs0
    subst hs0
    rw [quic_transport.read_loop]
    simp only [hoff, if_false, quic_transport.packet_iteration, hdecode, hlong, hne, if_true]
  refine ⟨hloop s rfl, ?_⟩
  intro hzero hsent
  have hs : ({ self := s.self, lib := s.lib, sent := [], off := 0 } : read_state L) = s := by
    cases s
    simp_all
  simp only [quic_transport.handle_read_event]
  rw [hloop _ hs]
  simp [hzero, hsent]

/-- Witness for C13: a datagram that starts with a long-header packet of
version 1. -/
theorem version_mismatch_negotiates_witness :
    quic_transport.read_loop sample.stray_library sample.foreign_long sample.sender 1
        sample.fresh_start =
      some { sample.fresh_start with
        sent := [sent_datagram.version_negotiation sample.sender [5, 6] [1, 2, 3, 4]] } ∧
    quic_transport.handle_read_event sample.stray_library 1 sample.fresh_transport ()
        (read_result.ok sample.foreign_long sample.sender) =
      some (true,
        { self := sample.fresh_transport, lib := (),
          sent := [sent_datagram.version_negotiation sample.sender [5, 6] [1, 2, 3, 4]],
          off := 0 }) :=
  have h := version_mismatch_negotiates sample.stray_library sample.foreign_long sample.sender
    sample.fresh_start
    { first_octet := 192, version := 1, cid_src := [5, 6],
      cid_dest_encrypted := [1, 2, 3, 4], node_id := 0, thread_id := 0 } 4 0
    (by decide) rfl rfl (by decide)
  ⟨h.1, h.2 rfl rfl⟩

theorem add_new_worker_fresh (d : transport_worker_dispatcher) (conn : quicly_conn_ptr)
    (h : conn ∉ d.workers_) : (d.add_new_worker conn).workers_ = d.workers_ ++ [conn] := by
  simp [transport_worker_dispatcher.add_new_worker, h]

/-- One pass of the packet loop over a long-header packet of the configured
version that is destined to no known connection, during which the library
reports no connection closed by its peer. If `quicly_accept` returns 0 and a
connection, the known connections afterwards are the old ones and that
connection, the master id has advanced by one (modulo 2^32, the width of the
field), and the workers are the old ones followed by one for that connection,
which as a new object has none yet. If it returns another value or no
connection, the three are unchanged. -/
theorem accept_pass_effects {L : Type} (q : quicly_library L) (data : List byte)
    (sa : ip_endpoint) (s : read_state L) (packet : quicly_decoded_packet_t) (n : Nat)
    (hdecode : q.decode_packet s.lib (data.drop s.off) = some (packet, n))
    (hlong : QUICLY_PACKET_IS_LONG_HEADER packet.first_octet = true)
    (hversion : packet.version = q.protocol_version)
    (hunknown : ∀ conn ∈ s.self.known_conns_,
      q.is_destination s.lib conn sa packet = false)
    (hquiet : ∀ c, quicly_callback.closed_by_peer c ∉
      (q.accept s.lib sa packet s.self.next_cid_master_id).callbacks) :
    ∃ s', quic_transport.packet_iteration q data sa s = loop_step.continue_ s' ∧
      (∀ conn, (q.accept s.lib sa packet s.self.next_cid_master_id).res = 0 →
        (q.accept s.lib sa packet s.self.next_cid_master_id).conn = some conn →
          (∀ c, c ∈ s'.self.known_conns_ ↔ c = conn ∨ c ∈ s.self.known_conns_) ∧
          s'.self.next_cid_master_id = (s.self.next_cid_master_id + 1) % 2 ^ 32 ∧
          (s.self.next_cid_master_id + 1 < 2 ^ 32 →
            s'.self.next_cid_master_id = s.self.next_cid_master_id + 1) ∧
          (conn ∉ s.self.dispatcher_.workers_ →
            s'.self.dispatcher_.workers_ = s.self.dispatcher_.workers_ ++ [conn])) ∧
      ((q.accept s.lib sa packet s.self.next_cid_master_id).res ≠ 0 ∨
          (q.accept s.lib sa packet s.self.next_cid_master_id).conn = none →
        s'.self.known_conns_ = s.self.known_conns_ ∧
        s'.self.next_cid_master_id = s.self.next_cid_master_id ∧
        s'.self.dispatcher_.workers_ = s.self.dispatcher_.workers_) := by
  have hfind := find_if_unknown q sa packet s hunknown
  have hne : (packet.version != q.protocol_version) = false := by simpa using hversion
  have hk := run_callbacks_known_conns _ hquiet s.self
  have hm := run_callbacks_master_id
    (q.accept s.lib sa packet s.self.next_cid_master_id).callbacks s.self
  have hd := run_callbacks_dispatcher
    (q.accept s.lib sa packet s.self.next_cid_master_id).callbacks s.self
  refine ⟨{ quic_transport.dispatch_packet q sa packet s with
      off := (quic_transport.dispatch_packet q sa packet s).off + 0 }, ?_, ?_, ?_⟩
  · simp only [quic_transport.packet_iteration, hdecode, hlong, hne, if_true]
    rfl
  · intro conn hres hconn
    simp only [quic_transport.dispatch_packet, hfind, hlong, if_true, hconn, hres]
    refine ⟨?_, ?_, ?_, ?_⟩
    · intro c
      simp only [mem_set_insert, hk]
    · simp only [hm]
    · intro hsmall
      simp only [hm]
      exact Nat.mod_eq_of_lt hsmall
    · intro hfresh
      simp only [hd]
      exact add_new_worker_fresh _ _ hfresh
  · intro hrefuse
    simp only [quic_transport.dispatch_packet, hfind, hlong, if_true]
    rcases hrefuse with hres | hconn
    · cases hc : (q.accept s.lib sa packet s.self.next_cid_master_id).conn with
      | none => exact ⟨hk, hm, by rw [hd]⟩
      | some conn =>
        simp only [hres, if_false]
        exact ⟨hk, hm, by rw [hd]⟩
    · simp only [hconn]
      exact ⟨hk, hm, by rw [hd]⟩

theorem accepting_iteration (s : read_state Unit) (hoff : s.off = 0)
    (hconns : s.self.known_conns_ = [9]) :
    ∃ s', quic_transport.packet_iteration sample.accepting_library sample.initial_long
          sample.sender s = loop_step.continue_ s' ∧ s'.off = 0 ∧
      s'.self.known_conns_ = [9] := by
  simp [quic_transport.packet_iteration, quic_transport.dispatch_packet,
    sample.accepting_library, sample.initial_long, hoff, hconns, find_if,
    QUICLY_PACKET_IS_LONG_HEADER, quic_transport.run_callbacks]

theorem accepting_read_loop (fuel : Nat) :
    ∀ s : read_state Unit, s.off = 0 → s.self.known_conns_ = [9] →
      quic_transport.read_loop sample.accepting_library sample.initial_long sample.sender
        fuel s = none := by
  induction fuel with
  | zero =>
    intro s hoff _
    simp [quic_transport.read_loop, hoff, sample.initial_long]
  | succ n ih =>
    intro s hoff hconns
    obtain ⟨s', hstep, hoff', hconns'⟩ := accepting_iteration s hoff hconns
    have hne : ¬ s.off = sample.initial_long.length := by
      rw [hoff]; decide
    rw [quic_transport.read_loop]
    simp only [hne, if_false, hstep]
    exact ih s' hoff' hconns'

/-- C14: on a datagram that holds one long-header packet of the configured
version for no known connection, which the library accepts as connection 9,
the first pass of the packet loop adds the connection, one worker for it and
one to the master id, and leaves the offset at 0; `handle_read_event` then does
not return, whatever fuel its packet loop is given. With a library that does
not name the new connection as the destination of the packet, the second pass
accepts the packet again and the master id has advanced by two. -/
theorem handle_read_event_accept_spins :
    sample.fresh_transport.known_conns_ = [] ∧
      sample.fresh_transport.dispatcher_.workers_ = [] ∧
      sample.fresh_transport.next_cid_master_id = 1 ∧
      quic_transport.packet_iteration sample.accepting_library sample.initial_long
          sample.sender sample.fresh_start = loop_step.continue_ sample.after_accept ∧
      sample.after_accept.self.known_conns_ = [9] ∧
      sample.after_accept.self.dispatcher_.workers_ = [9] ∧
      sample.after_accept.self.next_cid_master_id = 2 ∧
      sample.after_accept.off = 0 ∧
      (∀ fuel : Nat,
        quic_transport.handle_read_event sample.accepting_library fuel sample.fresh_transport ()
          (read_result.ok sample.initial_long sample.sender) = none) ∧
      (∃ s1 s2,
        quic_transport.packet_iteration sample.library sample.initial_long sample.sender
            sample.fresh_start = loop_step.continue_ s1 ∧
          quic_transport.packet_iteration sample.library sample.initial_long sample.sender
            s1 = loop_step.continue_ s2 ∧
          s1.self.next_cid_master_id = 2 ∧ s2.self.next_cid_master_id = 3) := by
  refine ⟨rfl, rfl, rfl, rfl, rfl, rfl, rfl, rfl, ?_, ⟨_, _, rfl, rfl, rfl, rfl⟩⟩
  intro fuel
  cases fuel with
  | zero => rfl
  | succ n =>
    have hstep : quic_transport.packet_iteration sample.accepting_library sample.initial_long
        sample.sender { self := sample.fresh_transport, lib := (), sent := [], off := 0 } =
        loop_step.continue_ sample.after_accept := rfl
    have hloop := accepting_read_loop n sample.after_accept rfl rfl
    have hne : ¬ (0 : Nat) = sample.initial_long.length := by decide
    simp only [quic_transport.handle_read_event]
    rw [quic_transport.read_loop]
    simp only [hne, if_false, hstep, hloop]

/-! ## The middleman: init, start and port -/

theorem init_backends_ok (bs : List middleman_backend) :
    ∀ done : List middleman_backend, (∀ b ∈ bs, b.init = none) →
      middleman.init_backends bs done = (outcome.returned (), done ++ bs) := by
  induction bs with
  | nil => intro done _; simp [middleman.init_backends]
  | cons b rest ih =>
    intro done h
    have hb : b.init = none := h b (List.mem_cons_self b rest)
    have hrest : ∀ x ∈ rest, x.init = none := fun x hx => h x (List.mem_cons_of_mem b hx)
    rw [middleman.init_backends]
    simp only [hb]
    rw [ih (done ++ [b]) hrest]
    simp

theorem init_backends_fails (bs : List middleman_backend) :
    ∀ done : List middleman_backend, (∃ b ∈ bs, b.init ≠ none) →
      (middleman.init_backends bs done).1 = outcome.raised "failed to initialize backend" := by
  induction bs with
  | nil =>
    intro done h
    obtain ⟨b, hb, _⟩ := h
    exact absurd hb (List.not_mem_nil b)
  | cons b rest ih =>
    intro done h
    rw [middleman.init_backends]
    cases hb : b.init with
    | some err => rfl
    | none =>
      simp only
      apply ih
      obtain ⟨x, hx, hxinit⟩ := h
      rcases List.mem_cons.mp hx with rfl | hx
      · exact absurd hb hxinit
      · exact ⟨x, hx, hxinit⟩

/-- C15: `middleman::init` raises exactly when the multiplexer's `init` returns
an error, or the configuration holds no URI under `middleman.this-node`, or the
`init` of some backend returns an error; otherwise it returns, the node id of
the system is the one made from the configured URI, and the `init` of every
backend has been called once, in list order. -/
theorem middleman_init_raises_iff (mpx_init : Option error) (this_node : Option uri)
    (backends_ : middleman_backend_list) (node_ : node_id) :
    ((∃ what, (middleman.init mpx_init this_node backends_ node_).result =
          outcome.raised what) ↔
        (mpx_init ≠ none ∨ this_node = none ∨ ∃ b ∈ backends_, b.init ≠ none)) ∧
      (¬ (mpx_init ≠ none ∨ this_node = none ∨ ∃ b ∈ backends_, b.init ≠ none) →
        (middleman.init mpx_init this_node backends_ node_).result = outcome.returned () ∧
        (∃ node_uri, this_node = some node_uri ∧
          (middleman.init mpx_init this_node backends_ node_).node_ =
            make_node_id node_uri) ∧
        (middleman.init mpx_init this_node backends_ node_).inits = backends_) := by
  have hok : ¬ (mpx_init ≠ none ∨ this_node = none ∨ ∃ b ∈ backends_, b.init ≠ none) →
      (middleman.init mpx_init this_node backends_ node_).result = outcome.returned () ∧
      (∃ node_uri, this_node = some node_uri ∧
        (middleman.init mpx_init this_node backends_ node_).node_ =
          make_node_id node_uri) ∧
      (middleman.init mpx_init this_node backends_ node_).inits = backends_ := by
    intro h
    push_neg at h
    obtain ⟨hmpx, hnode, hbackends⟩ := h
    subst hmpx
    cases this_node with
    | none => exact absurd rfl hnode
    | some node_uri =>
      have hall := init_backends_ok backends_ [] hbackends
      refine ⟨?_, ⟨node_uri, rfl, ?_⟩, ?_⟩
      · simp only [middleman.init, hall]
      · simp only [middleman.init]
      · simp only [middleman.init, hall, List.nil_append]
  refine ⟨⟨?_, ?_⟩, hok⟩
  · rintro ⟨what, hraised⟩
    by_contra hnot
    rw [(hok hnot).1] at hraised
    cases hraised
  · intro h
    cases mpx_init with
    | some err => exact ⟨_, rfl⟩
    | none =>
      cases this_node with
      | none => exact ⟨_, rfl⟩
      | some node_uri =>
        rcases h with h | h | h
        · exact absurd rfl h
        · cases h
        · exact ⟨_, init_backends_fails backends_ [] h⟩

/-- Witness for C15: with a working multiplexer and a configured node URI,
`init` returns on the sample backends and raises when a failing backend is
among them. -/
theorem middleman_init_raises_iff_witness :
    ((middleman.init none (some sample.this_node) sample.backends node_id.invalid).result =
        outcome.returned () ∧
      (∃ node_uri, some sample.this_node = some node_uri ∧
        (middleman.init none (some sample.this_node) sample.backends node_id.invalid).node_ =
          make_node_id node_uri) ∧
      (middleman.init none (some sample.this_node) sample.backends node_id.invalid).inits =
        sample.backends) ∧
    (∃ what, (middleman.init none (some sample.this_node)
        [sample.test_backend, sample.broken_backend] node_id.invalid).result =
          outcome.raised what) :=
  ⟨(middleman_init_raises_iff none (some sample.this_node) sample.backends node_id.invalid).2
      (by
        rintro (h | h | ⟨b, hb, hinit⟩)
        · exact h rfl
        · cases h
        · simp only [sample.backends, List.mem_cons, List.mem_singleton, List.mem_nil_iff,
            or_false] at hb
          rcases hb with rfl | rfl <;> exact hinit rfl),
    (middleman_init_raises_iff none (some sample.this_node)
      [sample.test_backend, sample.broken_backend] node_id.invalid).1.mpr
      (Or.inr (Or.inr ⟨sample.broken_backend, by simp, by simp [sample.broken_backend]⟩))⟩

/-- C16: `middleman::start` on a middleman without a thread returns, and it
spawns the multiplexer thread exactly when the value under
`middleman.manual-multiplexing` is not true, an absent key counting as false;
the thread runs the multiplexer; and when the value is true the middleman is
left without a thread. -/
theorem middleman_start_spawns_iff (manual_multiplexing : Option Bool) :
    ((∃ body, middleman.start manual_multiplexing none = outcome.returned (some body)) ↔
        get_or manual_multiplexing false = false) ∧
      get_or (none : Option Bool) false = false ∧
      (get_or manual_multiplexing false = false →
        ∃ body, middleman.start manual_multiplexing none = outcome.returned (some body) ∧
          thread_step.mpx_run ∈ body) ∧
      middleman.start (some true) none = outcome.returned none ∧
      (middleman.start manual_multiplexing none = outcome.returned none ↔
        get_or manual_multiplexing false = true) ∧
      (∃ thread, middleman.start manual_multiplexing none = outcome.returned thread) := by
  refine ⟨?_, rfl, ?_, rfl, ?_, ?_⟩
  · cases manual_multiplexing with
    | none => simp [middleman.start, get_or]
    | some b => cases b <;> simp [middleman.start, get_or]
  · intro h
    simp [middleman.start, h]
  · cases manual_multiplexing with
    | none => simp [middleman.start, get_or]
    | some b => cases b <;> simp [middleman.start, get_or]
  · cases manual_multiplexing with
    | none => simp [middleman.start, get_or]
    | some b => cases b <;> simp [middleman.start, get_or]

/-- Witness for C16: the key is absent. -/
theorem middleman_start_spawns_iff_witness :
    ∃ body, middleman.start none none = outcome.returned (some body) ∧
      thread_step.mpx_run ∈ body :=
  (middleman_start_spawns_iff none).2.2.1 rfl

/-- C17: `middleman::port(scheme)` returns the port of the first backend whose id
is the scheme, and returns `invalid_scheme` exactly when no backend has that
id. -/
theorem middleman_port_routes (backends_ : middleman_backend_list) (scheme : String) :
    (∀ pre ptr post, backends_ = pre ++ ptr :: post →
        (∀ b ∈ pre, b.id ≠ scheme) → ptr.id = scheme →
        middleman.port backends_ scheme = expected.value ptr.port) ∧
      (middleman.port backends_ scheme =
          expected.failure (error.of_ec basp.ec.invalid_scheme) ↔
        ∀ b ∈ backends_, b.id ≠ scheme) := by
  have hhit : ∀ pre ptr post, backends_ = pre ++ ptr :: post →
      (∀ b ∈ pre, b.id ≠ scheme) → ptr.id = scheme →
      middleman.port backends_ scheme = expected.value ptr.port := by
    intro pre ptr post hl hpre hptr
    have hfind : middleman.backend backends_ scheme = some ptr := by
      rw [hl]
      exact find_if_first _ pre post ptr
        (fun b hb => id_beq_false b _ (hpre b hb)) (by simp [hptr])
    simp [middleman.port, hfind]
  refine ⟨hhit, ⟨?_, ?_⟩⟩
  · intro hfail
    rcases find_if_cases (fun ptr : middleman_backend => ptr.id == scheme) backends_ with
      ⟨pre, x, post, hl, hpre, hx⟩ | hnone
    · have hvalue := hhit pre x post hl (fun b hb => by simpa using hpre b hb)
        (by simpa using hx)
      rw [hvalue] at hfail
      cases hfail
    · intro b hb
      simpa using hnone b hb
  · intro hnone
    have hfind : middleman.backend backends_ scheme = none :=
      find_if_eq_none _ backends_ (fun b hb => id_beq_false b _ (hnone b hb))
    simp [middleman.port, hfind]

/-- Witness for C17: the UDP backend listens on port 4242, and no backend is
registered for `tcp`. -/
theorem middleman_port_routes_witness :
    middleman.port sample.backends "udp" = expected.value 4242 ∧
      middleman.port sample.backends "tcp" =
        expected.failure (error.of_ec basp.ec.invalid_scheme) :=
  ⟨(middleman_port_routes sample.backends "udp").1 [] (backend.udp.as_backend 4242)
      [sample.test_backend] rfl (fun _ h => absurd h (List.not_mem_nil _)) rfl,
    (middleman_port_routes sample.backends "tcp").2.mpr
      (by
        intro b hb
        simp only [sample.backends, List.mem_cons, List.mem_singleton, List.mem_nil_iff,
          or_false] at hb
        rcases hb with rfl | rfl <;> decide)⟩

/-! ## The UDP backend: proxies -/

/-- C18: the proxy that `udp::make_proxy(n, a)` returns has the node `n`, the
actor id `a`, and the endpoint manager that `peer(n)` returns, which is the
endpoint manager of the backend. -/
theorem udp_make_proxy_attributes (self : backend.udp.state) (n : node_id) (a : Nat) :
    (backend.udp.make_proxy self n a).node = n ∧
      (backend.udp.make_proxy self n a).id = a ∧
      (backend.udp.make_proxy self n a).dst = backend.udp.peer self n ∧
      backend.udp.peer self n = self.ep_manager_ :=
  ⟨rfl, rfl, rfl, rfl⟩

/-! ## The packet writer decorator -/

theorem append_buffers_eq (buffers : List (List byte)) :
    ∀ packet_buf : List byte,
      dummy_transport.append_buffers packet_buf buffers = packet_buf ++ buffers.flatten := by
  induction buffers with
  | nil => intro packet_buf; simp [dummy_transport.append_buffers]
  | cons buf rest ih =>
    intro packet_buf
    rw [dummy_transport.append_buffers, ih]
    simp [vector_insert_end]

/-- C19: `write_impl(buffers)` of a decorator around the object with id
`object_id` makes one call `write_packet(object_id, buffers)` on the parent; on
the dummy transport of the test the call leaves `object_id` as the destination
and the concatenation of the buffers, in order, as the packet bytes. -/
theorem write_impl_forwards (object_id : ip_endpoint) (buffers : List (List byte))
    (calls : List (ip_endpoint × List (List byte))) (res_ : transport_result) :
    packet_writer_decorator.write_impl recording_write_packet object_id calls buffers =
        calls ++ [(object_id, buffers)] ∧
      (packet_writer_decorator.write_impl dummy_transport.write_packet object_id res_
          buffers).ep = object_id ∧
      (packet_writer_decorator.write_impl dummy_transport.write_packet object_id res_
          buffers).packet_buffer = buffers.flatten := by
  refine ⟨rfl, rfl, ?_⟩
  simp [packet_writer_decorator.write_impl, dummy_transport.write_packet, append_buffers_eq]

/-! ## The QUIC transport: initialisation -/

/-- C20: when the dispatcher initialises, `quic_transport::init` loads the
certificate chain from `P ++ "server.crt"` and then the private key from
`P ++ "server.key"`, where `P` is the value of `QUICLY_CERTS` when the variable
is set, whatever the value, and the path compiled into the transport when it is
not. -/
theorem quic_init_certificate_files (path : Option String) :
    quic_transport.init none path =
        (none,
          [init_effect.load_certificate_chain (quic_transport.path_to_certs path ++ "server.crt"),
            init_effect.load_private_key (quic_transport.path_to_certs path ++ "server.key"),
            init_effect.mask_add_read]) ∧
      (∀ value : String, quic_transport.path_to_certs (some value) = value) ∧
      quic_transport.path_to_certs none = "/home/jakob/code/quicly/t/assets/" ∧
      (quic_transport.init none (some "")).2 =
        [init_effect.load_certificate_chain "server.crt",
          init_effect.load_private_key "server.key", init_effect.mask_add_read] :=
  ⟨rfl, fun _ => rfl, rfl, by decide⟩

/-! ## The ordering header -/

/-- C21: the ordering header is one 16-bit sequence number: its size is 2 bytes,
which are the 16 bits of the sequence; the sequence is the only field handed to
an inspector; the sequence of every header is below 2^16; and incrementing the
sequence of a header is addition modulo 2^16, so that the sequence 65535 is
followed by 0. -/
theorem ordering_header_is_two_bytes :
    reliability.ordering_header_size = 2 ∧
      reliability.ordering_header_size * 8 = reliability.sequence_type_bits ∧
      (∀ x : reliability.ordering_header, (reliability.inspect x).2 = [x.sequence]) ∧
      (∀ x : reliability.ordering_header, x.sequence.value < 2 ^ 16) ∧
      (∀ x : reliability.ordering_header,
        x.sequence.succ.value = (x.sequence.value + 1) % 2 ^ 16) ∧
      (∀ n : Nat,
        ({ sequence := reliability.sequence_type.of_int n } :
          reliability.ordering_header).sequence.value = n % 2 ^ 16) ∧
      ({ sequence := reliability.sequence_type.of_int 65535 } :
          reliability.ordering_header).sequence.value = 65535 ∧
      ({ sequence := reliability.sequence_type.of_int 65535 } :
          reliability.ordering_header).sequence.succ.value = 0 :=
  ⟨rfl, rfl, fun _ => rfl, fun x => x.sequence.in_range, fun _ => rfl, fun _ => rfl, rfl, rfl⟩

/-! ## The middleman: make, backend and stop -/

theorem create_backends_eq (token : List backend_type) :
    ∀ backends_ : middleman_backend_list,
      middleman.create_backends backends_ token = backends_ ++ token.map (fun T => T ()) := by
  induction token with
  | nil => intro backends_; simp [middleman.create_backends]
  | cons T Ts ih =>
    intro backends_
    rw [middleman.create_backends, ih]
    simp

/-- C23: `middleman::backend(scheme)` returns the first backend, in the order of
the list, whose id is the scheme, and null exactly when no backend has that id;
`middleman::make` fills the list with one backend per listed type, each built
by the constructor of its type, in the order of the types. -/
theorem middleman_backend_first_match (backends_ : middleman_backend_list) (scheme : String)
    (token : List backend_type) :
    (∀ pre ptr post, backends_ = pre ++ ptr :: post →
        (∀ b ∈ pre, b.id ≠ scheme) → ptr.id = scheme →
        middleman.backend backends_ scheme = some ptr) ∧
      (middleman.backend backends_ scheme = none ↔ ∀ b ∈ backends_, b.id ≠ scheme) ∧
      middleman.make token = token.map (fun T => T ()) ∧
      (middleman.make token).length = token.length := by
  have hhit : ∀ pre ptr post, backends_ = pre ++ ptr :: post →
      (∀ b ∈ pre, b.id ≠ scheme) → ptr.id = scheme →
      middleman.backend backends_ scheme = some ptr := by
    intro pre ptr post hl hpre hptr
    rw [hl]
    exact find_if_first _ pre post ptr
      (fun b hb => id_beq_false b _ (hpre b hb)) (by simp [hptr])
  have hmake : middleman.make token = token.map (fun T => T ()) := by
    unfold middleman.make
    cases token with
    | nil => rfl
    | cons T Ts => simp [create_backends_eq]
  refine ⟨hhit, ⟨?_, ?_⟩, hmake, by rw [hmake, List.length_map]⟩
  · intro hnull
    rcases find_if_cases (fun ptr : middleman_backend => ptr.id == scheme) backends_ with
      ⟨pre, x, post, hl, hpre, hx⟩ | hnone
    · have hsome := hhit pre x post hl (fun b hb => by simpa using hpre b hb)
        (by simpa using hx)
      rw [hsome] at hnull
      cases hnull
    · intro b hb
      simpa using hnone b hb
  · intro hnone
    exact find_if_eq_none _ backends_ (fun b hb => id_beq_false b _ (hnone b hb))

/-- Witness for C23: the middleman made from the UDP and the test backend type
finds the test backend for `test` and nothing for `tcp`. -/
theorem middleman_backend_first_match_witness :
    middleman.backend sample.backends "test" = some sample.test_backend ∧
      middleman.backend sample.backends "tcp" = none ∧
      middleman.make sample.backend_types = sample.backends :=
  ⟨(middleman_backend_first_match sample.backends "test" sample.backend_types).1
      [backend.udp.as_backend 4242] sample.test_backend [] rfl
      (by
        intro b hb
        rw [List.mem_singleton] at hb
        subst hb
        decide)
      rfl,
    (middleman_backend_first_match sample.backends "tcp" sample.backend_types).2.1.mpr
      (by
        intro b hb
        simp only [sample.backends, List.mem_cons, List.mem_singleton, List.mem_nil_iff,
          or_false] at hb
        rcases hb with rfl | rfl <;> decide),
    (middleman_backend_first_match sample.backends "tcp" sample.backend_types).2.2.1⟩

theorem stop_backends_eq (backends_ : middleman_backend_list) :
    middleman.stop_backends backends_ = backends_.map stop_effect.backend_stop := by
  induction backends_ with
  | nil => rfl
  | cons b rest ih => simp [middleman.stop_backends, ih]

/-- C26: `middleman::stop` stops every backend in list order, then asks the
multiplexer to shut down, and last joins the multiplexer thread when the
middleman holds one and runs the multiplexer on the calling thread when it holds
none. -/
theorem middleman_stop_order (backends_ : middleman_backend_list)
    (body : List thread_step) :
    middleman.stop backends_ (some body) =
        backends_.map stop_effect.backend_stop ++
          [stop_effect.mpx_shutdown, stop_effect.thread_join] ∧
      middleman.stop backends_ none =
        backends_.map stop_effect.backend_stop ++
          [stop_effect.mpx_shutdown, stop_effect.mpx_run] := by
  constructor <;> simp [middleman.stop, stop_backends_eq]

/-! ## The QUIC transport: read configuration and closed connections -/

/-- What the body of `prepare_next_read` computes after `configure_read` with the
flag and `N`, were the read buffer's elements default constructible: the
collected count 0; the threshold `N` for `exactly`, 1 for `at_most` and `N` for
`at_least`; and a read buffer of `N` entries for `exactly` and `at_most` and of
`N + max(100, N / 10)` entries, computed modulo 2^64, for `at_least`. -/
theorem prepare_next_read_given_counts (filler : received_data) (t : quic_transport)
    (N : Nat) :
    (∀ flag, (quic_transport.prepare_next_read_given filler
        (quic_transport.configure_read t (flag, N))).collected_ = 0) ∧
      (quic_transport.prepare_next_read_given filler
        (quic_transport.configure_read t (receive_policy_flag.exactly, N))).read_threshold_ = N ∧
      (quic_transport.prepare_next_read_given filler
        (quic_transport.configure_read t (receive_policy_flag.at_most, N))).read_threshold_ = 1 ∧
      (quic_transport.prepare_next_read_given filler
        (quic_transport.configure_read t (receive_policy_flag.at_least, N))).read_threshold_ = N ∧
      (quic_transport.prepare_next_read_given filler
        (quic_transport.configure_read t (receive_policy_flag.exactly, N))).read_buf_.length = N ∧
      (quic_transport.prepare_next_read_given filler
        (quic_transport.configure_read t (receive_policy_flag.at_most, N))).read_buf_.length = N ∧
      (quic_transport.prepare_next_read_given filler
        (quic_transport.configure_read t (receive_policy_flag.at_least, N))).read_buf_.length =
          (N + max 100 (N / 10)) % 2 ^ 64 := by
  refine ⟨?_, ?_, ?_, ?_, ?_, ?_, ?_⟩
  · intro flag
    cases flag <;>
      simp only [quic_transport.prepare_next_read_given, quic_transport.configure_read] <;>
      split <;> rfl
  all_goals
    simp only [quic_transport.prepare_next_read_given, quic_transport.configure_read] <;>
    split <;> simp_all [vector_resize_with]

/-- C29: `on_closed_by_peer(c)` removes the connection with the address `c` from
the known connections and nothing else: afterwards `c` is not known, every
other connection is known exactly when it was before, and the dispatcher with
its workers is unchanged. -/
theorem on_closed_by_peer_removes (t : quic_transport) (c : quicly_conn_ptr) :
    c ∉ (quic_transport.on_closed_by_peer t c).known_conns_ ∧
      (∀ x, x ≠ c →
        (x ∈ (quic_transport.on_closed_by_peer t c).known_conns_ ↔ x ∈ t.known_conns_)) ∧
      (quic_transport.on_closed_by_peer t c).dispatcher_ = t.dispatcher_ ∧
      (quic_transport.on_closed_by_peer t c).dispatcher_.workers_ = t.dispatcher_.workers_ := by
  refine ⟨?_, ?_, rfl, rfl⟩
  · simp [quic_transport.on_closed_by_peer, set_erase]
  · intro x hx
    simp [quic_transport.on_closed_by_peer, set_erase, hx]

/-! ## The QUIC transport: the packet queue -/

theorem write_packet_queue_grows (t : quic_transport) (header payload : List byte)
    (conn : quicly_conn_ptr) :
    t.packet_queue_ <+: (quic_transport.write_packet t header payload conn).packet_queue_ := by
  simp [quic_transport.write_packet]

theorem write_packets_queue_grows (l : List (List byte × List byte × quicly_conn_ptr)) :
    ∀ t : quic_transport, t.packet_queue_ <+: (quic_transport.write_packets t l).packet_queue_ := by
  induction l with
  | nil => intro t; exact List.prefix_refl _
  | cons x rest ih =>
    intro t
    obtain ⟨header, payload, conn⟩ := x
    rw [quic_transport.write_packets]
    exact (write_packet_queue_grows t header payload conn).trans (ih _)

theorem write_message_queue_grows
    (app_write : message → List (List byte × List byte × quicly_conn_ptr))
    (t : quic_transport) (msg : message) :
    t.packet_queue_ <+: (quic_transport.write_message app_write t msg).packet_queue_ := by
  exact write_packets_queue_grows (app_write msg)
    { t with dispatcher_ := t.dispatcher_.write_message msg }

theorem drain_messages_queue_grows {P : Type}
    (app_write : message → List (List byte × List byte × quicly_conn_ptr))
    (next_message : P → Option message × P) (fuel : Nat) :
    ∀ (t t' : quic_transport) (parent parent' : P),
      quic_transport.drain_messages app_write next_message fuel t parent = some (t', parent') →
      t.packet_queue_ <+: t'.packet_queue_ := by
  induction fuel with
  | zero =>
    intro t t' parent parent' h
    simp [quic_transport.drain_messages] at h
  | succ n ih =>
    intro t t' parent parent' h
    rw [quic_transport.drain_messages] at h
    rcases hnm : next_message parent with ⟨m, p1⟩
    rw [hnm] at h
    cases m with
    | none =>
      simp only [Option.some.injEq, Prod.mk.injEq] at h
      rw [← h.1]
    | some msg =>
      simp only at h
      exact (write_message_queue_grows app_write t msg).trans (ih _ _ _ _ h)

theorem handle_write_event_result {P : Type}
    (app_write : message → List (List byte × List byte × quicly_conn_ptr))
    (next_message : P → Option message × P) (fuel : Nat) (t : quic_transport) (parent : P)
    (r : Bool × quic_transport × P)
    (h : quic_transport.handle_write_event app_write next_message fuel t parent = some r) :
    r.1 = false ∧ t.packet_queue_ <+: r.2.1.packet_queue_ := by
  unfold quic_transport.handle_write_event at h
  simp only [quic_transport.write_some] at h
  cases hd : quic_transport.drain_messages app_write next_message fuel t parent with
  | none => simp [hd] at h
  | some tp =>
    obtain ⟨t', parent'⟩ := tp
    rw [hd] at h
    simp only [Option.some.injEq] at h
    subst h
    exact ⟨rfl, drain_messages_queue_grows app_write next_message fuel t t' parent parent' hd⟩

theorem run_callbacks_packet_queue (cbs : List quicly_callback) :
    ∀ t : quic_transport,
      (quic_transport.run_callbacks t cbs).packet_queue_ = t.packet_queue_ := by
  induction cbs with
  | nil => intro t; rfl
  | cons cb rest ih =>
    intro t
    cases cb with
    | on_receive conn input =>
      rw [quic_transport.run_callbacks, ih]
      unfold quic_transport.on_receive
      split <;> rfl
    | closed_by_peer conn =>
      rw [quic_transport.run_callbacks, ih]
      rfl

theorem dispatch_packet_queue {L : Type} (q : quicly_library L) (sa : ip_endpoint)
    (packet : quicly_decoded_packet_t) (s : read_state L) :
    (quic_transport.dispatch_packet q sa packet s).self.packet_queue_ =
      s.self.packet_queue_ := by
  unfold quic_transport.dispatch_packet
  split
  · exact run_callbacks_packet_queue _ _
  · split
    · dsimp only
      split
      · split <;> exact run_callbacks_packet_queue _ _
      · exact run_callbacks_packet_queue _ _
    · split <;> rfl

theorem packet_iteration_queue {L : Type} (q : quicly_library L) (data : List byte)
    (sa : ip_endpoint) (s s' : read_state L)
    (h : quic_transport.packet_iteration q data sa s = loop_step.break_ s' ∨
      quic_transport.packet_iteration q data sa s = loop_step.continue_ s') :
    s'.self.packet_queue_ = s.self.packet_queue_ := by
  unfold quic_transport.packet_iteration at h
  split at h
  · rcases h with h | h <;> cases h
    rfl
  · split at h
    · split at h
      · rcases h with h | h <;> cases h
        rfl
      · rcases h with h | h <;> cases h
        exact dispatch_packet_queue q sa _ s
    · rcases h with h | h <;> cases h
      exact dispatch_packet_queue q sa _ s

theorem read_loop_queue {L : Type} (q : quicly_library L) (data : List byte)
    (sa : ip_endpoint) (fuel : Nat) :
    ∀ s s' : read_state L, quic_transport.read_loop q data sa fuel s = some s' →
      s'.self.packet_queue_ = s.self.packet_queue_ := by
  induction fuel with
  | zero =>
    intro s s' h
    rw [quic_transport.read_loop] at h
    split at h
    · cases h; rfl
    · cases h
  | succ n ih =>
    intro s s' h
    rw [quic_transport.read_loop] at h
    split at h
    · cases h; rfl
    · cases hstep : quic_transport.packet_iteration q data sa s with
      | break_ s1 =>
        rw [hstep] at h
        cases h
        exact packet_iteration_queue q data sa s s' (Or.inl hstep)
      | continue_ s1 =>
        rw [hstep] at h
        simp only at h
        rw [ih s1 s' h]
        exact packet_iteration_queue q data sa s s1 (Or.inr hstep)

theorem handle_read_event_queue {L : Type} (q : quicly_library L) (fuel : Nat)
    (t : quic_transport) (lib : L) (ret : read_result) (r : Bool × read_state L)
    (h : quic_transport.handle_read_event q fuel t lib ret = some r) :
    r.2.self.packet_queue_ = t.packet_queue_ := by
  unfold quic_transport.handle_read_event at h
  cases ret with
  | err code =>
    cases h
    rfl
  | ok data ep =>
    simp only at h
    cases hloop : quic_transport.read_loop q data ep fuel
        { self := t, lib := lib, sent := [], off := 0 } with
    | none => simp [hloop] at h
    | some s =>
      rw [hloop] at h
      cases h
      exact read_loop_queue q data ep fuel _ s hloop

theorem prepare_next_read_queue (filler : received_data) (t : quic_transport) :
    (quic_transport.prepare_next_read_given filler t).packet_queue_ = t.packet_queue_ := by
  unfold quic_transport.prepare_next_read_given
  dsimp only
  split <;> split <;> rfl

/-- C22: `write_some` returns false and leaves the transport, its packet queue
included, as it is; `handle_write_event` returns false whenever it returns, and
it returns for every parent that hands out finitely many messages; and every
operation of the transport keeps the queued packets as a prefix of the queue,
so their number never decreases. -/
theorem write_some_is_stubbed {L : Type} (q : quicly_library L)
    (app_write : message → List (List byte × List byte × quicly_conn_ptr))
    (app_timeout : Nat → Nat → List (List byte × List byte × quicly_conn_ptr))
    (dispatcher_resolve : transport_worker_dispatcher → String → actor →
      transport_worker_dispatcher)
    (dispatcher_set_timeout : transport_worker_dispatcher → Nat → quicly_conn_ptr →
      transport_worker_dispatcher)
    (dispatcher_timeout : transport_worker_dispatcher → Nat → Nat →
      transport_worker_dispatcher)
    (filler : received_data) :
    (∀ t : quic_transport, quic_transport.write_some t = (false, t)) ∧
      (∀ (P : Type) (next_message : P → Option message × P) (fuel : Nat)
          (t : quic_transport) (parent : P) (r : Bool × quic_transport × P),
        quic_transport.handle_write_event app_write next_message fuel t parent = some r →
          r.1 = false) ∧
      (∀ (P : Type) (next_message : P → Option message × P) (fuel : Nat)
          (t : quic_transport) (parent parent' : P) (msgs : List message),
        yields next_message parent msgs parent' → msgs.length < fuel →
          ∃ t', quic_transport.handle_write_event app_write next_message fuel t parent =
            some (false, t', parent')) ∧
      (∀ t t' : quic_transport,
        transport_step q app_write app_timeout dispatcher_resolve dispatcher_set_timeout
            dispatcher_timeout filler t t' →
          t.packet_queue_ <+: t'.packet_queue_ ∧
            t.packet_queue_.length ≤ t'.packet_queue_.length) := by
  refine ⟨fun _ => rfl, ?_, ?_, ?_⟩
  · intro P next_message fuel t parent r h
    exact (handle_write_event_result app_write next_message fuel t parent r h).1
  · intro P next_message fuel t parent parent' msgs hyields hfuel
    have h := drain_messages_yields app_write next_message msgs fuel t parent parent'
      hyields hfuel
    exact ⟨msgs.foldl (quic_transport.write_message app_write) t,
      by simp [quic_transport.handle_write_event, quic_transport.write_some, h]⟩
  · intro t t' hstep
    have hgrows : t.packet_queue_ <+: t'.packet_queue_ := by
      cases hstep with
      | handle_read_event fuel _ lib ret r h =>
        rw [handle_read_event_queue q fuel t lib ret r h]
      | handle_write_event P next_message fuel _ parent r h =>
        exact (handle_write_event_result app_write next_message fuel t parent r h).2
      | resolve _ path listener => exact List.prefix_refl _
      | timeout _ value id =>
        exact write_packets_queue_grows (app_timeout value id)
          { t with dispatcher_ := dispatcher_timeout t.dispatcher_ value id }
      | set_timeout _ timeout_id ep => exact List.prefix_refl _
      | handle_error _ code => exact List.prefix_refl _
      | prepare_next_read _ => rw [prepare_next_read_queue]
      | configure_read _ cfg => exact List.prefix_refl _
      | write_packet _ header payload conn =>
        exact write_packet_queue_grows t header payload conn
      | write_some _ => exact List.prefix_refl _
      | on_closed_by_peer _ conn => exact List.prefix_refl _
    exact ⟨hgrows, hgrows.length_le⟩

/-- Witness for C22: writing a packet on the sample transport, and a write event
with a parent that queues the two sample messages. -/
theorem write_some_is_stubbed_witness :
    (sample.transport.packet_queue_ <+:
          (quic_transport.write_packet sample.transport [1] [2] 7).packet_queue_ ∧
        sample.transport.packet_queue_.length ≤
          (quic_transport.write_packet sample.transport [1] [2] 7).packet_queue_.length) ∧
      ∃ t', quic_transport.handle_write_event sample.app_write sample.fifo_next_message 3
          sample.transport sample.outbound = some (false, t', []) :=
  have h := write_some_is_stubbed sample.library sample.app_write (fun _ _ => [])
    (fun d _ _ => d) (fun d _ _ => d) (fun d _ _ => d) sample.filler
  ⟨h.2.2.2 sample.transport _
      (transport_step.write_packet sample.transport [1] [2] 7),
    h.2.2.1 (List message) sample.fifo_next_message 3 sample.transport sample.outbound []
      sample.outbound ⟨rfl, rfl, rfl, rfl⟩ (by decide)⟩

/-! ## The UDP backend: init -/

/-- C25: `udp::init` returns, unchanged, the error of the first step that fails
among parsing `"[::]:<port>"` for the configured port, creating the socket,
switching it to non-blocking and initialising the endpoint manager; it returns
no error exactly when the four steps succeed, and then the listening port is
the port that the socket creation reported. -/
theorem udp_init_first_error (env : backend.udp.environment) (udp_port : Nat)
    (configured : Option Nat) (self : backend.udp.state) :
    (∀ err, env.parse ("[::]:" ++ toString (get_or configured udp_port)) =
        expected.failure err →
        (backend.udp.init env udp_port configured self).1 = some err) ∧
      (∀ ep err, env.parse ("[::]:" ++ toString (get_or configured udp_port)) =
          expected.value ep →
        env.make_udp_datagram_socket ep true = expected.failure err →
        (backend.udp.init env udp_port configured self).1 = some err) ∧
      (∀ ep sock err, env.parse ("[::]:" ++ toString (get_or configured udp_port)) =
          expected.value ep →
        env.make_udp_datagram_socket ep true = expected.value sock →
        env.nonblocking sock.1 true = some err →
        (backend.udp.init env udp_port configured self).1 = some err) ∧
      (∀ ep sock err, env.parse ("[::]:" ++ toString (get_or configured udp_port)) =
          expected.value ep →
        env.make_udp_datagram_socket ep true = expected.value sock →
        env.nonblocking sock.1 true = none →
        env.manager_init (env.make_endpoint_manager sock.1) = some err →
        (backend.udp.init env udp_port configured self).1 = some err) ∧
      ((backend.udp.init env udp_port configured self).1 = none ↔
        ∃ ep sock, env.parse ("[::]:" ++ toString (get_or configured udp_port)) =
            expected.value ep ∧
          env.make_udp_datagram_socket ep true = expected.value sock ∧
          env.nonblocking sock.1 true = none ∧
          env.manager_init (env.make_endpoint_manager sock.1) = none ∧
          (backend.udp.init env udp_port configured self).2.listening_port_ = sock.2) := by
  refine ⟨?_, ?_, ?_, ?_, ?_⟩
  · intro err hparse
    simp only [backend.udp.init, hparse]
  · intro ep err hparse hsock
    simp only [backend.udp.init, hparse, hsock]
  · intro ep sock err hparse hsock hnb
    simp only [backend.udp.init, hparse, hsock, hnb]
  · intro ep sock err hparse hsock hnb hinit
    simp only [backend.udp.init, hparse, hsock, hnb, hinit]
  · constructor
    · intro hnone
      cases hparse : env.parse ("[::]:" ++ toString (get_or configured udp_port)) with
      | failure err => simp [backend.udp.init, hparse] at hnone
      | value ep =>
        cases hsock : env.make_udp_datagram_socket ep true with
        | failure err => simp [backend.udp.init, hparse, hsock] at hnone
        | value sock =>
          cases hnb : env.nonblocking sock.1 true with
          | some err => simp [backend.udp.init, hparse, hsock, hnb] at hnone
          | none =>
            cases hinit : env.manager_init (env.make_endpoint_manager sock.1) with
            | some err => simp [backend.udp.init, hparse, hsock, hnb, hinit] at hnone
            | none =>
              refine ⟨ep, sock, rfl, hsock, hnb, hinit, ?_⟩
              simp only [backend.udp.init, hparse, hsock, hnb, hinit]
    · rintro ⟨ep, sock, hparse, hsock, hnb, hinit, _⟩
      simp only [backend.udp.init, hparse, hsock, hnb, hinit]

/-- Witness for C25: in the sample environment `init` returns no error and the
listening port is the port 50123 of the socket; with a failing endpoint manager
it returns the error of that step. -/
theorem udp_init_first_error_witness :
    (backend.udp.init sample.udp_environment 0 none sample.udp_state).1 = none ∧
      (∃ ep sock, sample.udp_environment.parse ("[::]:" ++ toString (get_or none 0)) =
            expected.value ep ∧
          sample.udp_environment.make_udp_datagram_socket ep true = expected.value sock ∧
          sample.udp_environment.nonblocking sock.1 true = none ∧
          sample.udp_environment.manager_init
            (sample.udp_environment.make_endpoint_manager sock.1) = none ∧
          (backend.udp.init sample.udp_environment 0 none sample.udp_state).2.listening_port_ =
            sock.2) ∧
      (backend.udp.init sample.udp_environment_failing_manager 0 none sample.udp_state).1 =
        some (error.of_sec sec.runtime_error "init failed") :=
  ⟨rfl,
    (udp_init_first_error sample.udp_environment 0 none sample.udp_state).2.2.2.2.mp rfl,
    (udp_init_first_error sample.udp_environment_failing_manager 0 none
      sample.udp_state).2.2.2.1 { address := [0, 0, 0, 0], port := 0 } (3, 50123) _
      rfl rfl rfl rfl⟩

/-- C27, as the code has it: when `udp::init` fails in parsing the address, in
creating the socket or in switching it to non-blocking, the backend is left as
it was; when the `init` of the endpoint manager fails, the listening port is
already the port of the new socket and the endpoint manager is the new one. -/
theorem udp_init_state_on_failure (env : backend.udp.environment) (udp_port : Nat)
    (configured : Option Nat) (self : backend.udp.state) :
    (∀ err, env.parse ("[::]:" ++ toString (get_or configured udp_port)) =
        expected.failure err →
        (backend.udp.init env udp_port configured self).2 = self) ∧
      (∀ ep err, env.parse ("[::]:" ++ toString (get_or configured udp_port)) =
          expected.value ep →
        env.make_udp_datagram_socket ep true = expected.failure err →
        (backend.udp.init env udp_port configured self).2 = self) ∧
      (∀ ep sock err, env.parse ("[::]:" ++ toString (get_or configured udp_port)) =
          expected.value ep →
        env.make_udp_datagram_socket ep true = expected.value sock →
        env.nonblocking sock.1 true = some err →
        (backend.udp.init env udp_port configured self).2 = self) ∧
      (∀ ep sock err, env.parse ("[::]:" ++ toString (get_or configured udp_port)) =
          expected.value ep →
        env.make_udp_datagram_socket ep true = expected.value sock →
        env.nonblocking sock.1 true = none →
        env.manager_init (env.make_endpoint_manager sock.1) = some err →
        (backend.udp.init env udp_port configured self).2 =
          { self with listening_port_ := sock.2,
                      ep_manager_ := some (env.make_endpoint_manager sock.1) }) := by
  refine ⟨?_, ?_, ?_, ?_⟩
  · intro err hparse
    simp only [backend.udp.init, hparse]
  · intro ep err hparse hsock
    simp only [backend.udp.init, hparse, hsock]
  · intro ep sock err hparse hsock hnb
    simp only [backend.udp.init, hparse, hsock, hnb]
  · intro ep sock err hparse hsock hnb hinit
    simp only [backend.udp.init, hparse, hsock, hnb, hinit]

/-- Witness for C27: the sample environment with a failing endpoint manager. -/
theorem udp_init_state_on_failure_witness :
    (backend.udp.init sample.udp_environment_failing_manager 0 none sample.udp_state).2 =
      { sample.udp_state with listening_port_ := 50123, ep_manager_ := some 88 } :=
  (udp_init_state_on_failure sample.udp_environment_failing_manager 0 none
    sample.udp_state).2.2.2 { address := [0, 0, 0, 0], port := 0 } (3, 50123)
    (error.of_sec sec.runtime_error "init failed") rfl rfl rfl rfl

/-- Counterexample for C27: on a fresh backend, with an endpoint manager whose
`init` fails, `udp::init` returns the error, yet `peer` is no longer null and the
listening port has changed. -/
theorem udp_init_not_atomic :
    (backend.udp.init sample.udp_environment_failing_manager 0 none sample.udp_state).1 =
        some (error.of_sec sec.runtime_error "init failed") ∧
      backend.udp.peer sample.udp_state node_id.invalid = none ∧
      backend.udp.peer
          (backend.udp.init sample.udp_environment_failing_manager 0 none sample.udp_state).2
          node_id.invalid = some 88 ∧
      sample.udp_state.listening_port_ = 0 ∧
      (backend.udp.init sample.udp_environment_failing_manager 0 none
        sample.udp_state).2.listening_port_ = 50123 :=
  ⟨rfl, rfl, rfl, rfl, rfl⟩

/-! ## The middleman: remote_actor -/

/-- C28, as the code has it: `remote_actor` returns a handle exactly when a proxy
arrived whose cast to the handle type is not null; a non-empty error that
arrived is returned unchanged; a timeout gives a runtime error; a proxy whose
cast is null gives a runtime error; and an empty error that arrived gives the
runtime error of the failed cast. Every call ends in one of these ways. -/
theorem remote_actor_outcomes {Handle : Type} (actor_cast : Option Nat → Option Handle)
    (received : received_message) :
    ((∃ handle, middleman.remote_actor actor_cast received = expected.value handle) ↔
        ∃ ptr interfaces handle, received = received_message.proxy ptr interfaces ∧
          actor_cast ptr = some handle) ∧
      (∀ ptr interfaces handle, received = received_message.proxy ptr interfaces →
        actor_cast ptr = some handle →
        middleman.remote_actor actor_cast received = expected.value handle) ∧
      (∀ e, received = received_message.error_message (some e) →
        middleman.remote_actor actor_cast received = expected.failure e) ∧
      (received = received_message.timeout →
        middleman.remote_actor actor_cast received =
          expected.failure
            (error.of_sec sec.runtime_error "manager did not respond with a proxy.")) ∧
      (∀ ptr interfaces, received = received_message.proxy ptr interfaces →
        actor_cast ptr = none →
        middleman.remote_actor actor_cast received =
          expected.failure (error.of_sec sec.runtime_error "cast to handle-type failed")) ∧
      (received = received_message.error_message none →
        middleman.remote_actor actor_cast received =
          expected.failure (error.of_sec sec.runtime_error "cast to handle-type failed")) := by
  refine ⟨⟨?_, ?_⟩, ?_, ?_, ?_, ?_, ?_⟩
  · rintro ⟨handle, h⟩
    cases received with
    | proxy ptr interfaces =>
      cases hcast : actor_cast ptr with
      | none => simp [middleman.remote_actor, hcast, make_error] at h
      | some handle' => exact ⟨ptr, interfaces, handle', rfl, hcast⟩
    | error_message e =>
      cases e with
      | none => simp [middleman.remote_actor, make_error] at h
      | some e => simp [middleman.remote_actor] at h
    | timeout => simp [middleman.remote_actor, make_error] at h
  · rintro ⟨ptr, interfaces, handle, hreceived, hcast⟩
    subst hreceived
    exact ⟨handle, by simp [middleman.remote_actor, hcast]⟩
  · intro ptr interfaces handle hreceived hcast
    subst hreceived
    simp [middleman.remote_actor, hcast]
  · intro e hreceived
    subst hreceived
    rfl
  · intro hreceived
    subst hreceived
    rfl
  · intro ptr interfaces hreceived hcast
    subst hreceived
    simp [middleman.remote_actor, hcast, make_error]
  · intro hreceived
    subst hreceived
    rfl

/-- Witness for C28: a proxy whose cast succeeds gives the handle, and the
`invalid_scheme` error that `resolve` sends for an unknown scheme is returned
unchanged. -/
theorem remote_actor_outcomes_witness :
    middleman.remote_actor (fun ptr : Option Nat => ptr)
        (received_message.proxy (some 12) ["caf::replies_to<int>"]) = expected.value 12 ∧
      middleman.remote_actor (fun ptr : Option Nat => ptr)
        (received_message.error_message (some (error.of_ec basp.ec.invalid_scheme))) =
        expected.failure (error.of_ec basp.ec.invalid_scheme) :=
  ⟨(remote_actor_outcomes (fun ptr : Option Nat => ptr)
      (received_message.proxy (some 12) ["caf::replies_to<int>"])).2.1
      (some 12) ["caf::replies_to<int>"] 12 rfl rfl,
    (remote_actor_outcomes (fun ptr : Option Nat => ptr)
      (received_message.error_message (some (error.of_ec basp.ec.invalid_scheme)))).2.2.1
      (error.of_ec basp.ec.invalid_scheme) rfl⟩

/-- Counterexample for C28: when the message that arrives is an empty error,
`remote_actor` does not return that error but the runtime error of a failed
cast, although no proxy arrived. -/
theorem remote_actor_empty_error :
    middleman.remote_actor (fun ptr : Option Nat => ptr)
        (received_message.error_message none) =
      expected.failure (error.of_sec sec.runtime_error "cast to handle-type failed") :=
  rfl

/-! ## Name resolution -/

theorem fetch_addr_str_entry (env : ip.environment) (i : ip.addrinfo) :
    (ip.entry_address env i = none →
        (ip.fetch_addr_str env true true i.ai_addr).1 = ip.address_family.AF_UNSPEC ∨
          ∃ buffer, (ip.fetch_addr_str env true true i.ai_addr).2 = some buffer ∧
            env.parse buffer = none) ∧
      (∀ address, ip.entry_address env i = some address →
        (ip.fetch_addr_str env true true i.ai_addr).1 ≠ ip.address_family.AF_UNSPEC ∧
          ∃ buffer, (ip.fetch_addr_str env true true i.ai_addr).2 = some buffer ∧
            env.parse buffer = some address) := by
  unfold ip.entry_address ip.fetch_addr_str
  cases i.ai_addr with
  | none => simp
  | some addr =>
    rcases addr with ⟨family, bytes⟩
    cases family <;> simp <;> cases env.inet_ntop _ bytes <;> simp

theorem resolve_loop_eq (env : ip.environment) (addrs : List ip.addrinfo) :
    ∀ results : List ip.ip_address,
      ip.resolve_loop env results addrs = results ++ addrs.filterMap (ip.entry_address env) := by
  induction addrs with
  | nil => intro results; simp [ip.resolve_loop]
  | cons i rest ih =>
    intro results
    rw [ip.resolve_loop]
    cases hentry : ip.entry_address env i with
    | none =>
      rcases (fetch_addr_str_entry env i).1 hentry with hfamily | ⟨buffer, hbuffer, hparse⟩
      · simp [hfamily, ih, hentry]
      · by_cases hfamily : (ip.fetch_addr_str env true true i.ai_addr).1 =
            ip.address_family.AF_UNSPEC
        · simp [hfamily, ih, hentry]
        · simp [hfamily, hbuffer, hparse, ih, hentry]
    | some address =>
      obtain ⟨hfamily, buffer, hbuffer, hparse⟩ :=
        (fetch_addr_str_entry env i).2 address hentry
      simp [hfamily, hbuffer, hparse, ih, hentry]

/-- C30: `ip::resolve(host)` returns the empty list when the lookup fails;
otherwise it returns, in the order of the lookup, the parsed address of every
entry that has a non-null IPv4 or IPv6 socket address whose text form converts
and parses, and nothing for the other entries; the lookup is made for a stream
socket of any family, with the passive flag exactly when the host is empty. -/
theorem ip_resolve_filters (env : ip.environment) (host : String) :
    (env.getaddrinfo host (ip.resolve_hints host) = none → ip.resolve env host = []) ∧
      (∀ addrs, env.getaddrinfo host (ip.resolve_hints host) = some addrs →
        ip.resolve env host = addrs.filterMap (ip.entry_address env)) ∧
      ((ip.resolve_hints host).ai_passive = true ↔ host = "") ∧
      (ip.resolve_hints host).ai_family = ip.address_family.AF_UNSPEC ∧
      (ip.resolve_hints host).ai_socktype_stream = true := by
  refine ⟨?_, ?_, ?_, rfl, rfl⟩
  · intro hfail
    simp [ip.resolve, hfail]
  · intro addrs hok
    simp [ip.resolve, hok, resolve_loop_eq]
  · exact String.isEmpty_iff host

/-- Witness for C30: `localhost` has three entries, of which only the IPv4 entry
has an address that converts and parses; an unknown host gives the empty
list. -/
theorem ip_resolve_filters_witness :
    ip.resolve sample.ip_environment "localhost" = [[127, 0, 0, 1]] ∧
      ip.resolve sample.ip_environment "nowhere.invalid" = [] := by
  have hknown := (ip_resolve_filters sample.ip_environment "localhost").2.1 _ rfl
  have hunknown := (ip_resolve_filters sample.ip_environment "nowhere.invalid").1 (by decide)
  exact ⟨hknown.trans (by decide), hunknown⟩

end net
end caf
